import Mathlib

/-! NotificacionCitas: the reminder engine of `server.js`.

A shallow embedding of the reminder-related part of `src/server.js`:

* `enviarMensajeWhatsApp` (lines 515-547), the dispatch gate with the phone
  normalisation;
* the two `cron.schedule` callbacks (lines 551-600 and 604-686), the 24h and
  the 2h reminder ticks, with their window computation, their `SELECT` and
  their `UPDATE`.

Modelling conventions.

* A date-time text is represented by the whole number of seconds it denotes,
  counted from `1970-01-01 00:00:00` of the same clock. SQLite's
  `datetime(x)` renders a text as `YYYY-MM-DD HH:MM:SS`; the order of those
  texts is the order of these numbers, so `BETWEEN` on `datetime(...)`
  values is `≤` on both sides. An instant (`new Date()`, `moment()`) is the
  number of milliseconds since the epoch.
* The table `citas` is a list of rows in storage order; a `SELECT` without
  `ORDER BY` is a filter of that list; the `UPDATE ... WHERE id = ?` is a
  map over it. Queries and writes themselves succeed.
* A tick runs from start to end on the world it is given: no handler of
  another event runs between two iterations of its loop.
* The world carries three records of what happened, which the program
  itself does not read back except for the number of earlier calls handed
  to `sendMessage`: the calls of `whatsappClient.sendMessage`, the calls of
  `enviarMensajeWhatsApp` made by the loops that returned, with what they
  returned, and the `UPDATE`s run.
-/

namespace NotificacionCitas

/-! ## Data model -/

/-- The two reminder kinds: the 24-hour one and the 2-hour one. -/
inductive Tipo where
  | h24
  | h2
  deriving DecidableEq, Repr

/-- A row of the table `citas` (lines 35-48). `fecha_cita` is the stored
civil date-time as a number of seconds, `precio_servicio` is in hundredths,
`notas` and `completed_at` are nullable. -/
structure Cita where
  id : Nat
  cliente_nombre : String
  cliente_telefono : String
  fecha_cita : Int
  servicio : String
  precio_servicio : Nat
  notas : Option String
  estado : String
  recordatorio_24h_enviado : Bool
  recordatorio_2h_enviado : Bool
  created_at : Int
  completed_at : Option Int
  deriving DecidableEq, Repr

/-- The object held in `whatsappClient`. `sendMessage n direccion mensaje` is
the outcome of the call made after `n` earlier calls: it resolves
(`.ok ()`) or rejects with some value. The rejection value is `none` when it
is `undefined` or `null`, the values on which reading `.message` throws, and
`some m` for any other value, `m` being what `.message` reads as. -/
structure Cliente where
  sendMessage : Nat → String → String → Except (Option String) Unit

/-- The globals `whatsappClient` and `isWhatsAppReady` (lines 17-18), the
table `citas`, and the records of the calls made: `enviados` has every call
of `sendMessage`, `intentos` every call of `enviarMensajeWhatsApp` of a loop
that returned. -/
structure Mundo where
  whatsappClient : Option Cliente
  isWhatsAppReady : Bool
  db : List Cita
  enviados : List (String × String)
  intentos : List (Cita × Bool)
  actualizaciones : List (Tipo × Nat)

/-! ## The dispatch gate -/

/-- The expression `numeroFormateado.replace(/[^\d]/g, '')` (line 525):
every character that is not one of `0`..`9` is removed. -/
def soloDigitos (s : List Char) : List Char :=
  s.filter Char.isDigit

/-- Lines 522-536 of `enviarMensajeWhatsApp`: the recipient address computed
from `numero`. -/
def formatearNumero (numero : String) : String :=
  let numeroFormateado := numero.data
  if numeroFormateado.contains '@' then
    String.mk numeroFormateado
  else
    let numeroFormateado := soloDigitos numeroFormateado
    let numeroFormateado :=
      if !("593".data).isPrefixOf numeroFormateado then
        if ("0".data).isPrefixOf numeroFormateado then
          "593".data ++ numeroFormateado.drop 1
        else
          "593".data ++ numeroFormateado
      else
        numeroFormateado
    String.mk (numeroFormateado ++ "@c.us".data)

/-- The function `enviarMensajeWhatsApp` (lines 515-547). The first component
is what the call produces: `.ok b` when it returns `b`, `.error e` when it
throws. The `try` block is the inner `match`. Its `catch` (lines 543-546)
first evaluates `error.message` for the log and then has `return false`:
with a rejection value that has a `.message` to read the call returns
`false`; with `undefined` or `null` the read throws a `TypeError` inside the
`catch`, and the call throws. -/
def enviarMensajeWhatsApp (w : Mundo) (numero mensaje : String) :
    Except String Bool × Mundo :=
  match w.isWhatsAppReady, w.whatsappClient with
  | true, some cliente =>
    let numeroFormateado := formatearNumero numero
    let w1 := { w with enviados := w.enviados ++ [(numeroFormateado, mensaje)] }
    match cliente.sendMessage w.enviados.length numeroFormateado mensaje with
    | .ok _ => (.ok true, w1)
    | .error (some _) => (.ok false, w1)
    | .error none => (.error "TypeError", w1)
  | _, _ => (.ok false, w)

/-! ## Time -/

/-- The text of a date-time as the number it denotes: the seconds from
`1970-01-01 00:00:00` to `anio-mes-dia hora:minuto:segundo` on one clock
(proleptic Gregorian calendar, for years from 1970 on). -/
def fechaHora (anio mes dia hora minuto segundo : Nat) : Int :=
  let a := if mes ≤ 2 then anio - 1 else anio
  let era := a / 400
  let anioDeEra := a - era * 400
  let mesDesdeMarzo := (mes + 9) % 12
  let diaDelAnio := (153 * mesDesdeMarzo + 2) / 5 + dia - 1
  let diaDeEra := anioDeEra * 365 + anioDeEra / 4 - anioDeEra / 100 + diaDelAnio
  let dias : Int := (era * 146097 + diaDeEra : Nat) - 719468
  dias * 86400 + (hora * 3600 + minuto * 60 + segundo : Nat)

/-- The value `datetime(d.toISOString())` for a `Date` at `instante`
milliseconds: `toISOString` renders the instant in UTC, `datetime` drops the
milliseconds. -/
def formatoUTC (instante : Int) : Int :=
  instante / 1000

/-- The value `datetime(m.format('YYYY-MM-DD HH:mm:ss'))` for a moment `m` at
`instante` milliseconds in the zone `America/Guayaquil` (lines 10, 612): the
civil time of that zone, without the milliseconds. The zone is five hours
behind UTC all year round (at every instant since 1993). -/
def formatoEcuador (instante : Int) : Int :=
  instante / 1000 - 5 * 3600

/-! ## The store -/

/-- The column `recordatorio_24h_enviado` or `recordatorio_2h_enviado` of a
row. -/
def Cita.enviado (t : Tipo) (c : Cita) : Bool :=
  match t with
  | .h24 => c.recordatorio_24h_enviado
  | .h2 => c.recordatorio_2h_enviado

/-- The row with `recordatorio_24h_enviado = 1` or `recordatorio_2h_enviado = 1`
set. -/
def Cita.marcar (t : Tipo) (c : Cita) : Cita :=
  match t with
  | .h24 => { c with recordatorio_24h_enviado := true }
  | .h2 => { c with recordatorio_2h_enviado := true }

/-- The `SELECT` of a tick (lines 561-564 for `h24`, 620-623 for `h2`):
the rows with `datetime(fecha_cita) BETWEEN datetime(desde) AND
datetime(hasta)`, the kind's flag `0` and `estado = 'programada'`, in
storage order. -/
def consulta (t : Tipo) (desde hasta : Int) (db : List Cita) : List Cita :=
  db.filter fun c =>
    (decide (desde ≤ c.fecha_cita) && decide (c.fecha_cita ≤ hasta))
      && (c.enviado t == false)
      && (c.estado == "programada")

/-- The statement `UPDATE citas SET recordatorio_<t>_enviado = 1 WHERE id = ?`
(lines 593 and 677). -/
def actualizar (t : Tipo) (id : Nat) (db : List Cita) : List Cita :=
  db.map fun c => if c.id = id then c.marcar t else c

/-! ## The messages -/

/-- The line `${cita.notas ? ... : ''}` of both templates: the notes when the
column is neither `NULL` nor the empty text. -/
def lineaNotas (c : Cita) : String :=
  match c.notas with
  | some n => if n = "" then "" else "📝 *Notas:* " ++ n
  | none => ""

/-- The text of the 24h reminder (lines 573-588); `fechaFormateada` is
`moment(cita.fecha_cita).format('DD/MM/YYYY HH:mm')`. -/
def mensaje24h (fechaFormateada : String) (c : Cita) : String :=
  "💅✨ *RECORDATORIO DE CITA* ✨💅\n\n"
    ++ "¡Hola " ++ c.cliente_nombre ++ "! 👋😊\n\n"
    ++ "🗓️ Te recordamos que *mañana* tienes tu cita:\n\n"
    ++ "📅 *Fecha:* " ++ fechaFormateada ++ "\n"
    ++ "💅🏻 *Servicio:* " ++ c.servicio ++ "\n"
    ++ lineaNotas c ++ "\n\n"
    ++ "*Recuerda*: Que son 15m de tolerancia, luego de eso la cita se cancela automaticamente   \n"
    ++ "⚠️ *Importante:* Si no puedes asistir, avísanos con tiempo para reprogramar tu cita 🙏\n\n"
    ++ "¡Te esperamos para consentir tus uñas! 💖✨\n\n"
    ++ "_E.j_Nailss_ 🌸"

/-- The text of the 2h reminder (lines 657-672). -/
def mensaje2h (fechaFormateada : String) (c : Cita) : String :=
  "⏰ *¡TU CITA ES HOY!* ⏰\n\n"
    ++ "Hola " ++ c.cliente_nombre ++ "! 💕\n\n"
    ++ "🚨 *Recordatorio urgente:* Tu cita es en aproximadamente 2 horas\n\n"
    ++ "⏰ *Hora:* " ++ fechaFormateada ++ "\n"
    ++ "💅 *Servicio:* " ++ c.servicio ++ "\n"
    ++ lineaNotas c ++ "\n\n"
    ++ "📍 No olvides llegar puntual\n"
    ++ "⚠️ *Importante:* Si no puedes asistir, avísanos con tiempo para reprogramar tu cita 🙏\n\n"
    ++ "¡Nos vemos muy pronto! 😊✨\n\n"
    ++ "_Nail Studio_ 🌸"

/-- The message of a tick of kind `t` for a row; `fmt` is the library call
`moment(·).format('DD/MM/YYYY HH:mm')` (lines 572 and 654). -/
def mensaje (fmt : Int → String) (t : Tipo) (c : Cita) : String :=
  match t with
  | .h24 => mensaje24h (fmt c.fecha_cita) c
  | .h2 => mensaje2h (fmt c.fecha_cita) c

/-! ## The two ticks -/

/-- The loop `for (const cita of citas)` of a tick (lines 571-598 and
653-684): render, send, and on `enviado` run the `UPDATE`. The awaited call
at lines 590 and 674 is not inside a `try`: when it throws, the callback ends
there and the rows after it get no call. -/
def bucle (fmt : Int → String) (t : Tipo) : List Cita → Mundo → Mundo
  | [], w => w
  | cita :: resto, w =>
    match enviarMensajeWhatsApp w cita.cliente_telefono (mensaje fmt t cita) with
    | (.ok enviado, w1) =>
      let w2 := { w1 with intentos := w1.intentos ++ [(cita, enviado)] }
      let w3 :=
        if enviado then
          { w2 with
            db := actualizar t cita.id w2.db
            actualizaciones := w2.actualizaciones ++ [(t, cita.id)] }
        else w2
      bucle fmt t resto w3
    | (.error _, w1) => w1

/-- The callback of `cron.schedule('*/8 * * * *', ...)` (lines 551-600), run
at the instant `ahora` (`new Date()`, line 558). -/
def recordatorio24h (fmt : Int → String) (w : Mundo) (ahora : Int) : Mundo :=
  if !w.isWhatsAppReady then w
  else
    let en24horas := ahora + 24 * 60 * 60 * 1000
    let citas := consulta .h24 (formatoUTC ahora) (formatoUTC en24horas) w.db
    if citas.length = 0 then w
    else bucle fmt .h24 citas w

/-- The callback of `cron.schedule('*/5 * * * *', ...)` (lines 604-686), run
at the instant `ahora` (`moment().tz('America/Guayaquil')`, line 612). With
no row found the callback only reads and logs. -/
def recordatorio2h (fmt : Int → String) (w : Mundo) (ahora : Int) : Mundo :=
  if !w.isWhatsAppReady then w
  else
    let en2horas := ahora + 2 * 60 * 60 * 1000
    let ventana_inicio := en2horas - 15 * 60 * 1000
    let ventana_fin := en2horas + 15 * 60 * 1000
    let citas :=
      consulta .h2 (formatoEcuador ventana_inicio) (formatoEcuador ventana_fin) w.db
    if citas.length = 0 then w
    else bucle fmt .h2 citas w

/-- A tick of kind `t`. -/
def tick (fmt : Int → String) (t : Tipo) (w : Mundo) (ahora : Int) : Mundo :=
  match t with
  | .h24 => recordatorio24h fmt w ahora
  | .h2 => recordatorio2h fmt w ahora

/-- The bounds the tick of kind `t` hands to its `SELECT` at `ahora`. -/
def ventana (t : Tipo) (ahora : Int) : Int × Int :=
  match t with
  | .h24 => (formatoUTC ahora, formatoUTC (ahora + 24 * 60 * 60 * 1000))
  | .h2 =>
    (formatoEcuador (ahora + 2 * 60 * 60 * 1000 - 15 * 60 * 1000),
     formatoEcuador (ahora + 2 * 60 * 60 * 1000 + 15 * 60 * 1000))

/-! ## What a tick did -/

/-- The calls of `enviarMensajeWhatsApp` recorded between two worlds: the
row each was made for and what it returned. -/
def intentosNuevos (antes despues : Mundo) : List (Cita × Bool) :=
  despues.intentos.drop antes.intentos.length

/-- The ids of the rows whose call returned `true`. -/
def exitosos (tr : List (Cita × Bool)) : List Nat :=
  (tr.filter fun p => p.2).map fun p => p.1.id

/-- The table after the `UPDATE` has run for each id of `ids`. -/
def marcados (t : Tipo) (ids : List Nat) (db : List Cita) : List Cita :=
  db.map fun c => if c.id ∈ ids then c.marcar t else c

/-- What `enviarMensajeWhatsApp` produces, with the channel ready, from the
outcome of its call of `sendMessage`. -/
def resultadoDe : Except (Option String) Unit → Except String Bool
  | .ok _ => .ok true
  | .error (some _) => .ok false
  | .error none => .error "TypeError"

/-- No call of the client rejects with `undefined` or `null`: every rejection
has a `.message` to read. -/
def sinRechazoVacio (cliente : Option Cliente) : Prop :=
  ∀ cl, cliente = some cl → ∀ n direccion mensaje,
    cl.sendMessage n direccion mensaje ≠ .error none

/-! ## Example worlds -/

/-- A scheduled row with both flags unset. -/
def citaEjemplo (id : Nat) (telefono : String) (fecha : Int) : Cita :=
  { id := id
    cliente_nombre := "Ana"
    cliente_telefono := telefono
    fecha_cita := fecha
    servicio := "Manicure Tradicional"
    precio_servicio := 1500
    notas := none
    estado := "programada"
    recordatorio_24h_enviado := false
    recordatorio_2h_enviado := false
    created_at := fechaHora 2024 5 30 9 0 0
    completed_at := none }

/-- A client whose call number `n` resolves when `exito n` and rejects with
an `Error` object otherwise. -/
def clienteEjemplo (exito : Nat → Bool) : Cliente :=
  { sendMessage := fun n _ _ => if exito n then .ok () else .error (some "fallo") }

/-- A client whose call number `n` has the outcome `resultado n`. -/
def clienteCon (resultado : Nat → Except (Option String) Unit) : Cliente :=
  { sendMessage := fun n _ _ => resultado n }

/-- A world with the channel ready, the given client and table, and nothing
recorded yet. -/
def mundoEjemplo (cl : Cliente) (db : List Cita) : Mundo :=
  { whatsappClient := some cl
    isWhatsAppReady := true
    db := db
    enviados := []
    intentos := []
    actualizaciones := [] }

/-- A fixed rendering of the date, for the examples. -/
def fmtEjemplo : Int → String :=
  fun _ => "01/06/2024 12:00"

/-- The instant at which the clocks of `America/Guayaquil` show
`2024-06-01 10:00:00`, which in UTC is `2024-06-01T15:00:00.000Z`. -/
def ahoraEjemplo : Int :=
  fechaHora 2024 6 1 15 0 0 * 1000

/-- Two scheduled rows, at `12:00` and at `12:10` of `2024-06-01`, and a
client whose first call rejects and whose later calls resolve. -/
def mundoDosCitas : Mundo :=
  mundoEjemplo (clienteEjemplo fun n => decide (1 ≤ n))
    [citaEjemplo 1 "099 123-4567" (fechaHora 2024 6 1 12 0 0),
     citaEjemplo 2 "0987654321" (fechaHora 2024 6 1 12 10 0)]

/-- A client whose first call rejects with `undefined` and whose later calls
resolve. -/
def clienteRechazoVacio : Cliente :=
  clienteCon fun n => if n = 0 then .error none else .ok ()

/-- The two rows of `mundoDosCitas`, both inside the 2h window of
`ahoraEjemplo`, with a client whose first call rejects with `undefined`. -/
def mundoRechazoVacio : Mundo :=
  mundoEjemplo clienteRechazoVacio
    [citaEjemplo 1 "099 123-4567" (fechaHora 2024 6 1 12 0 0),
     citaEjemplo 2 "0987654321" (fechaHora 2024 6 1 12 10 0)]

/-- Four scheduled rows inside the 2h window of `ahoraEjemplo`, and a client
whose first call rejects with an `Error` object, whose second call resolves
and whose third call rejects with `undefined`. -/
def mundoCuatroCitas : Mundo :=
  mundoEjemplo
    (clienteCon fun n =>
      if n = 0 then .error (some "fallo") else if n = 2 then .error none else .ok ())
    [citaEjemplo 1 "0991111111" (fechaHora 2024 6 1 12 0 0),
     citaEjemplo 2 "0992222222" (fechaHora 2024 6 1 12 5 0),
     citaEjemplo 3 "0993333333" (fechaHora 2024 6 1 12 10 0),
     citaEjemplo 4 "0994444444" (fechaHora 2024 6 1 12 15 0)]

/-! ## What happens between ticks -/

/-- One step of the running server, as far as the reminders go: a tick of
either callback, the handler of the `ready` event of a client (lines
483-489), or the handler of `disconnected` (lines 501-504). -/
inductive Paso where
  | tick (t : Tipo) (ahora : Int)
  | ready (cliente : Cliente)
  | disconnected

/-- The world after one step. -/
def paso (fmt : Int → String) : Paso → Mundo → Mundo
  | .tick t ahora, w => tick fmt t w ahora
  | .ready cliente, w => { w with isWhatsAppReady := true, whatsappClient := some cliente }
  | .disconnected, w => { w with isWhatsAppReady := false }

/-- The world after a sequence of steps, the first of the list first. -/
def correr (fmt : Int → String) : List Paso → Mundo → Mundo
  | [], w => w
  | p :: resto, w => correr fmt resto (paso fmt p w)

/-- Two scheduled rows of `2024-06-02`: the one stored first is at `10:00`,
the one stored second at `09:30`; every send succeeds. -/
def mundoDesordenado : Mundo :=
  mundoEjemplo (clienteEjemplo fun _ => true)
    [citaEjemplo 1 "0991234567" (fechaHora 2024 6 2 10 0 0),
     citaEjemplo 2 "0987654321" (fechaHora 2024 6 2 9 30 0)]

/-- The instant at which the clocks of `America/Guayaquil` show
`2024-06-02 07:45:00`. -/
def ahoraSegundoDia : Int :=
  fechaHora 2024 6 2 12 45 0 * 1000

/-! ## Lemmas on the dispatch gate -/

theorem isDigit_iff (c : Char) : c.isDigit = true ↔ '0' ≤ c ∧ c ≤ '9' := by
  simp only [Char.isDigit, Bool.and_eq_true, decide_eq_true_eq, Char.le_def]
  rfl

theorem soloDigitos_eq (s : List Char) :
    soloDigitos s = s.filter (fun c => decide ('0' ≤ c ∧ c ≤ '9')) := by
  unfold soloDigitos
  apply List.filter_congr
  intro c _
  by_cases h : c.isDigit = true
  · rw [h, decide_eq_true ((isDigit_iff c).1 h)]
  · have h' : ¬ ('0' ≤ c ∧ c ≤ '9') := fun hc => h ((isDigit_iff c).2 hc)
    rw [Bool.not_eq_true] at h
    rw [h, decide_eq_false h']

theorem drop_one_eq_tail (l : List Char) : l.drop 1 = l.tail := by
  cases l <;> rfl

/-- The address computed for a text without `@`, case by case. -/
theorem formatearNumero_sin_arroba (numero : String) (h : '@' ∉ numero.data) :
    formatearNumero numero =
      String.mk
        ((if "593".data <+: soloDigitos numero.data then soloDigitos numero.data
          else if "0".data <+: soloDigitos numero.data then
            "593".data ++ (soloDigitos numero.data).tail
          else "593".data ++ soloDigitos numero.data) ++ "@c.us".data) := by
  have hc : numero.data.contains '@' = false := by
    simpa using h
  unfold formatearNumero
  simp only [hc, Bool.false_eq_true, if_false]
  by_cases h1 : "593".data <+: soloDigitos numero.data
  · have h1' : ("593".data).isPrefixOf (soloDigitos numero.data) = true :=
      List.isPrefixOf_iff_prefix.2 h1
    simp only [h1', h1, Bool.not_true, Bool.false_eq_true, if_false, if_true]
  · have h1' : ("593".data).isPrefixOf (soloDigitos numero.data) = false := by
      rw [← Bool.not_eq_true]
      exact fun hp => h1 (List.isPrefixOf_iff_prefix.1 hp)
    by_cases h2 : "0".data <+: soloDigitos numero.data
    · have h2' : ("0".data).isPrefixOf (soloDigitos numero.data) = true :=
        List.isPrefixOf_iff_prefix.2 h2
      simp only [h1', h1, h2', h2, Bool.not_false, if_true, if_false, drop_one_eq_tail]
    · have h2' : ("0".data).isPrefixOf (soloDigitos numero.data) = false := by
        rw [← Bool.not_eq_true]
        exact fun hp => h2 (List.isPrefixOf_iff_prefix.1 hp)
      simp only [h1', h1, h2', h2, Bool.not_false, if_true, if_false, Bool.false_eq_true]

/-- With the channel ready the gate calls `sendMessage` once, with the
formatted address, and what it produces is read off the outcome of that
call. -/
theorem enviarMensajeWhatsApp_listo (w : Mundo) (cl : Cliente) (numero mensaje : String)
    (hr : w.isWhatsAppReady = true) (hc : w.whatsappClient = some cl) :
    enviarMensajeWhatsApp w numero mensaje =
      (resultadoDe (cl.sendMessage w.enviados.length (formatearNumero numero) mensaje),
       { w with enviados := w.enviados ++ [(formatearNumero numero, mensaje)] }) := by
  unfold enviarMensajeWhatsApp
  rw [hr, hc]
  simp only
  rcases cl.sendMessage w.enviados.length (formatearNumero numero) mensaje with
    (_ | _) | _ <;> rfl

/-- With the channel not ready, or without a client, the gate returns `false`
and changes nothing. -/
theorem enviarMensajeWhatsApp_no_listo (w : Mundo) (numero mensaje : String)
    (h : w.isWhatsAppReady = false ∨ w.whatsappClient = none) :
    enviarMensajeWhatsApp w numero mensaje = (.ok false, w) := by
  unfold enviarMensajeWhatsApp
  rcases h with h | h
  · rw [h]
  · rw [h]
    cases w.isWhatsAppReady <;> rfl

/-! ## C1, C10: the dispatch gate -/

/-- C1: for a phone text without `@`, with the channel ready, the one call of
`sendMessage` that `enviarMensajeWhatsApp` makes has as recipient the digits
of the text, kept as they are when they start with `593`, with a leading `0`
replaced by `593`, and otherwise with `593` put in front, followed by
`@c.us`. -/
theorem enviarMensajeWhatsApp_direccion (w : Mundo) (cl : Cliente)
    (numero mensaje : String)
    (hr : w.isWhatsAppReady = true) (hc : w.whatsappClient = some cl)
    (h : '@' ∉ numero.data) :
    (enviarMensajeWhatsApp w numero mensaje).2.enviados =
      w.enviados ++
        [(String.mk
            ((if "593".data <+: numero.data.filter (fun c => decide ('0' ≤ c ∧ c ≤ '9')) then
                numero.data.filter (fun c => decide ('0' ≤ c ∧ c ≤ '9'))
              else if "0".data <+: numero.data.filter (fun c => decide ('0' ≤ c ∧ c ≤ '9')) then
                "593".data ++ (numero.data.filter (fun c => decide ('0' ≤ c ∧ c ≤ '9'))).tail
              else
                "593".data ++ numero.data.filter (fun c => decide ('0' ≤ c ∧ c ≤ '9')))
              ++ "@c.us".data),
          mensaje)] := by
  rw [enviarMensajeWhatsApp_listo w cl numero mensaje hr hc,
    formatearNumero_sin_arroba numero h, soloDigitos_eq]

/-- The call of `enviarMensajeWhatsApp` throws exactly when the channel is
ready, there is a client and its `sendMessage` rejects with `undefined` or
`null`. -/
theorem enviarMensajeWhatsApp_lanza_iff (w : Mundo) (numero mensaje : String) :
    (∃ e, (enviarMensajeWhatsApp w numero mensaje).1 = .error e) ↔
      w.isWhatsAppReady = true ∧
        ∃ cl, w.whatsappClient = some cl ∧
          cl.sendMessage w.enviados.length (formatearNumero numero) mensaje =
            .error none := by
  by_cases hr : w.isWhatsAppReady = true
  · rcases hc : w.whatsappClient with _ | cl
    · rw [enviarMensajeWhatsApp_no_listo w numero mensaje (Or.inr hc)]
      constructor
      · rintro ⟨e, he⟩
        cases he
      · rintro ⟨_, cl, hcl, _⟩
        cases hcl
    · rw [enviarMensajeWhatsApp_listo w cl numero mensaje hr hc]
      constructor
      · rintro ⟨e, he⟩
        refine ⟨hr, cl, rfl, ?_⟩
        rcases h : cl.sendMessage w.enviados.length (formatearNumero numero) mensaje with
          (_ | m) | u
        · rfl
        · simp [resultadoDe, h] at he
        · simp [resultadoDe, h] at he
      · rintro ⟨_, cl1, hcl, hm⟩
        cases hcl
        exact ⟨"TypeError", by rw [hm]; rfl⟩
  · rw [enviarMensajeWhatsApp_no_listo w numero mensaje (Or.inl (by simpa using hr))]
    constructor
    · rintro ⟨e, he⟩
      cases he
    · rintro ⟨h, _⟩
      exact absurd h hr

/-- When no rejection of the client is `undefined` or `null`, the call of
`enviarMensajeWhatsApp` returns a boolean: `false` when the channel is not
ready or there is no client, `false` when `sendMessage` rejects, and `true`
exactly when the channel is ready, there is a client and its `sendMessage`
resolves. -/
theorem enviarMensajeWhatsApp_devuelve_booleano (w : Mundo) (numero mensaje : String)
    (hs : sinRechazoVacio w.whatsappClient) :
    ∃ b : Bool, (enviarMensajeWhatsApp w numero mensaje).1 = .ok b ∧
      (w.isWhatsAppReady = false ∨ w.whatsappClient = none → b = false) ∧
      (∀ cl e, w.whatsappClient = some cl →
        cl.sendMessage w.enviados.length (formatearNumero numero) mensaje = .error e →
        b = false) ∧
      (b = true ↔
        w.isWhatsAppReady = true ∧
          ∃ cl, w.whatsappClient = some cl ∧
            cl.sendMessage w.enviados.length (formatearNumero numero) mensaje = .ok ()) := by
  by_cases hr : w.isWhatsAppReady = true
  · rcases hc : w.whatsappClient with _ | cl
    · refine ⟨false, ?_, fun _ => rfl, fun _ _ _ _ => rfl, ?_⟩
      · rw [enviarMensajeWhatsApp_no_listo w numero mensaje (Or.inr hc)]
      · constructor
        · intro h
          cases h
        · rintro ⟨_, cl, hcl, _⟩
          cases hcl
    · have hn := hs cl hc w.enviados.length (formatearNumero numero) mensaje
      rcases h : cl.sendMessage w.enviados.length (formatearNumero numero) mensaje with
        (_ | m) | u
      · exact absurd h hn
      · refine ⟨false, ?_, fun _ => rfl, fun _ _ _ _ => rfl, ?_⟩
        · rw [enviarMensajeWhatsApp_listo w cl numero mensaje hr hc, h]
          rfl
        · constructor
          · intro hb
            cases hb
          · rintro ⟨_, cl1, hcl, hm⟩
            cases hcl
            rw [h] at hm
            cases hm
      · refine ⟨true, ?_, ?_, ?_, ?_⟩
        · rw [enviarMensajeWhatsApp_listo w cl numero mensaje hr hc, h]
          rfl
        · rintro (hf | hn)
          · rw [hr] at hf
            cases hf
          · cases hn
        · intro cl1 e hcl hm
          cases hcl
          rw [h] at hm
          cases hm
        · exact ⟨fun _ => ⟨hr, cl, rfl, h⟩, fun _ => rfl⟩
  · refine ⟨false, ?_, fun _ => rfl, fun _ _ _ _ => rfl, ?_⟩
    · rw [enviarMensajeWhatsApp_no_listo w numero mensaje (Or.inl (by simpa using hr))]
    · constructor
      · intro h
        cases h
      · rintro ⟨h, _⟩
        exact absurd h hr

/-- C10 (evaluation at the failing input): with the channel ready and a
client whose `sendMessage` rejects with `undefined`, the call of
`enviarMensajeWhatsApp` throws instead of returning `false`, after having
called `sendMessage` once; with a rejection that is an `Error` object the
same call returns `false`. -/
theorem enviarMensajeWhatsApp_lanza :
    (enviarMensajeWhatsApp (mundoEjemplo clienteRechazoVacio []) "0991234567" "hola").1 =
        .error "TypeError" ∧
      (enviarMensajeWhatsApp (mundoEjemplo clienteRechazoVacio []) "0991234567"
          "hola").2.enviados = [("593991234567@c.us", "hola")] ∧
      (enviarMensajeWhatsApp (mundoEjemplo (clienteEjemplo fun _ => false) [])
          "0991234567" "hola").1 = .ok false :=
  ⟨rfl, by decide, rfl⟩

/-! ## Lemmas on the loop -/

theorem marcar_id (t : Tipo) (c : Cita) : (c.marcar t).id = c.id := by
  cases t <;> rfl

theorem marcar_marcar (t : Tipo) (c : Cita) : (c.marcar t).marcar t = c.marcar t := by
  cases t <;> rfl

theorem marcar_enviado (t : Tipo) (c : Cita) : (c.marcar t).enviado t = true := by
  cases t <;> rfl

theorem marcados_nil (t : Tipo) (db : List Cita) : marcados t [] db = db := by
  simp [marcados]

theorem marcados_actualizar (t : Tipo) (id : Nat) (ids : List Nat) (db : List Cita) :
    marcados t ids (actualizar t id db) = marcados t (id :: ids) db := by
  unfold marcados actualizar
  rw [List.map_map]
  apply List.map_congr_left
  intro c _
  simp only [Function.comp_apply, List.mem_cons]
  by_cases h1 : c.id = id
  · simp only [h1, if_true, true_or, marcar_id, marcar_marcar, ite_self]
  · simp only [h1, if_false, false_or]

/-- The gate touches only the record of `sendMessage` calls, and it returns
when no rejection of the client is `undefined` or `null`. -/
theorem enviarMensajeWhatsApp_marco (w : Mundo) (numero mensaje : String) :
    ∃ (r : Except String Bool) (w1 : Mundo),
      enviarMensajeWhatsApp w numero mensaje = (r, w1) ∧
      w1.db = w.db ∧ w1.intentos = w.intentos ∧
      w1.actualizaciones = w.actualizaciones ∧
      w1.isWhatsAppReady = w.isWhatsAppReady ∧ w1.whatsappClient = w.whatsappClient ∧
      (sinRechazoVacio w.whatsappClient → ∃ b : Bool, r = .ok b) := by
  cases hr : w.isWhatsAppReady with
  | false =>
    exact ⟨.ok false, w, enviarMensajeWhatsApp_no_listo w numero mensaje (Or.inl hr),
      rfl, rfl, rfl, hr.symm ▸ rfl, rfl, fun _ => ⟨false, rfl⟩⟩
  | true =>
    cases hc : w.whatsappClient with
    | none =>
      exact ⟨.ok false, w, enviarMensajeWhatsApp_no_listo w numero mensaje (Or.inr hc),
        rfl, rfl, rfl, hr.symm ▸ rfl, hc.symm ▸ rfl, fun _ => ⟨false, rfl⟩⟩
    | some cl =>
      refine ⟨_, _, enviarMensajeWhatsApp_listo w cl numero mensaje hr hc,
        rfl, rfl, rfl, hr, hc, fun hs => ?_⟩
      have hn := hs cl rfl w.enviados.length (formatearNumero numero) mensaje
      rcases h : cl.sendMessage w.enviados.length (formatearNumero numero) mensaje with
        (_ | m) | u
      · exact absurd h hn
      · exact ⟨false, rfl⟩
      · exact ⟨true, rfl⟩

/-- What the loop does to the world: the recorded calls are for the rows of
the batch, in order, up to the first call that throws, and for all of them
when no rejection of the client is `undefined` or `null`; the `UPDATE` is run
for the rows whose call returned `true`. -/
theorem bucle_spec (fmt : Int → String) (t : Tipo) (l : List Cita) (w : Mundo) :
    ∃ tr : List (Cita × Bool),
      (bucle fmt t l w).intentos = w.intentos ++ tr ∧
      tr.map Prod.fst <+: l ∧
      (bucle fmt t l w).db = marcados t (exitosos tr) w.db ∧
      (bucle fmt t l w).actualizaciones =
        w.actualizaciones ++ (exitosos tr).map (fun i => (t, i)) ∧
      (bucle fmt t l w).isWhatsAppReady = w.isWhatsAppReady ∧
      (bucle fmt t l w).whatsappClient = w.whatsappClient ∧
      (sinRechazoVacio w.whatsappClient → tr.map Prod.fst = l) := by
  induction l generalizing w with
  | nil =>
    exact ⟨[], by simp [bucle], List.prefix_refl _, by simp [bucle, exitosos, marcados_nil],
      by simp [bucle, exitosos], rfl, rfl, fun _ => rfl⟩
  | cons cita resto ih =>
    obtain ⟨r, w1, he, hdb, hint, hact, hr, hc, hok⟩ :=
      enviarMensajeWhatsApp_marco w cita.cliente_telefono (mensaje fmt t cita)
    rcases r with e | b
    · refine ⟨[], ?_, List.nil_prefix, ?_, ?_, ?_, ?_, fun hs => ?_⟩
      · simp only [bucle, he]
        rw [hint]
        simp
      · simp only [bucle, he]
        rw [hdb]
        simp [exitosos, marcados_nil]
      · simp only [bucle, he]
        rw [hact]
        simp [exitosos]
      · simp only [bucle, he]
        exact hr
      · simp only [bucle, he]
        exact hc
      · obtain ⟨b, hb⟩ := hok hs
        cases hb
    · cases b with
      | false =>
        obtain ⟨tr, h1, h2, h3, h4, h5, h6, h7⟩ :=
          ih { w1 with intentos := w1.intentos ++ [(cita, false)] }
        refine ⟨(cita, false) :: tr, ?_, ?_, ?_, ?_, ?_, ?_, fun hs => ?_⟩
        · simp only [bucle, he, Bool.false_eq_true, if_false]
          rw [h1, hint]
          simp
        · simpa using h2
        · simp only [bucle, he, Bool.false_eq_true, if_false]
          rw [h3]
          simp [exitosos, hdb]
        · simp only [bucle, he, Bool.false_eq_true, if_false]
          rw [h4]
          simp [exitosos, hact]
        · simp only [bucle, he, Bool.false_eq_true, if_false]
          rw [h5, hr]
        · simp only [bucle, he, Bool.false_eq_true, if_false]
          rw [h6, hc]
        · have h7' := h7 (by rw [show w1.whatsappClient = w.whatsappClient from hc]; exact hs)
          simp [h7']
      | true =>
        obtain ⟨tr, h1, h2, h3, h4, h5, h6, h7⟩ :=
          ih { w1 with
                intentos := w1.intentos ++ [(cita, true)]
                db := actualizar t cita.id w1.db
                actualizaciones := w1.actualizaciones ++ [(t, cita.id)] }
        refine ⟨(cita, true) :: tr, ?_, ?_, ?_, ?_, ?_, ?_, fun hs => ?_⟩
        · simp only [bucle, he, if_true]
          rw [h1, hint]
          simp
        · simpa using h2
        · simp only [bucle, he, if_true]
          rw [h3]
          simp only [hdb, marcados_actualizar]
          simp [exitosos]
        · simp only [bucle, he, if_true]
          rw [h4]
          simp [exitosos, hact]
        · simp only [bucle, he, if_true]
          rw [h5, hr]
        · simp only [bucle, he, if_true]
          rw [h6, hc]
        · have h7' := h7 (by rw [show w1.whatsappClient = w.whatsappClient from hc]; exact hs)
          simp [h7']

/-- With the channel ready and a client none of whose rejections is
`undefined` or `null`, the loop calls `sendMessage` once per row of the
batch, in order, with the formatted phone of the row and the message of the
row. -/
theorem bucle_enviados (fmt : Int → String) (t : Tipo) (l : List Cita) (w : Mundo)
    (cl : Cliente) (hr : w.isWhatsAppReady = true) (hc : w.whatsappClient = some cl)
    (hs : ∀ n direccion texto, cl.sendMessage n direccion texto ≠ .error none) :
    (bucle fmt t l w).enviados =
      w.enviados ++ l.map (fun c => (formatearNumero c.cliente_telefono, mensaje fmt t c)) := by
  induction l generalizing w with
  | nil => simp [bucle]
  | cons cita resto ih =>
    have he := enviarMensajeWhatsApp_listo w cl cita.cliente_telefono (mensaje fmt t cita) hr hc
    have hb : ∃ b : Bool, resultadoDe (cl.sendMessage w.enviados.length
        (formatearNumero cita.cliente_telefono) (mensaje fmt t cita)) = .ok b := by
      have hn := hs w.enviados.length (formatearNumero cita.cliente_telefono)
        (mensaje fmt t cita)
      rcases h : cl.sendMessage w.enviados.length (formatearNumero cita.cliente_telefono)
        (mensaje fmt t cita) with (_ | m) | u
      · exact absurd h hn
      · exact ⟨false, rfl⟩
      · exact ⟨true, rfl⟩
    obtain ⟨b, hb⟩ := hb
    rw [hb] at he
    cases b with
    | false =>
      simp only [bucle, he, Bool.false_eq_true, if_false]
      rw [ih]
      · simp
      · exact hr
      · exact hc
    | true =>
      simp only [bucle, he, if_true]
      rw [ih]
      · simp
      · exact hr
      · exact hc

/-! ## Lemmas on the ticks -/

/-- Both callbacks are the readiness guard followed by the loop over the
result of the `SELECT` between the bounds of `ventana`. -/
theorem tick_eq (fmt : Int → String) (t : Tipo) (w : Mundo) (ahora : Int) :
    tick fmt t w ahora =
      if w.isWhatsAppReady then
        bucle fmt t (consulta t (ventana t ahora).1 (ventana t ahora).2 w.db) w
      else w := by
  cases t <;> cases hr : w.isWhatsAppReady <;>
    simp only [tick, recordatorio24h, recordatorio2h, ventana, hr, Bool.not_true,
      Bool.not_false, if_true, if_false, Bool.false_eq_true] <;>
    split <;> rename_i h <;>
    first
      | rfl
      | (rw [List.length_eq_zero.1 h]; rfl)

theorem consulta_mem (t : Tipo) (desde hasta : Int) (db : List Cita) (c : Cita) :
    c ∈ consulta t desde hasta db ↔
      c ∈ db ∧ desde ≤ c.fecha_cita ∧ c.fecha_cita ≤ hasta ∧
        c.enviado t = false ∧ c.estado = "programada" := by
  simp [consulta, and_assoc]

theorem consulta_sublist (t : Tipo) (desde hasta : Int) (db : List Cita) :
    (consulta t desde hasta db).Sublist db :=
  List.filter_sublist db

/-- The `SELECT` as a filter by the conditions of its `WHERE`. -/
theorem consulta_eq_filter (t : Tipo) (desde hasta : Int) (db : List Cita) :
    consulta t desde hasta db =
      db.filter (fun c => decide (c.estado = "programada" ∧ c.enviado t = false ∧
        desde ≤ c.fecha_cita ∧ c.fecha_cita ≤ hasta)) := by
  rw [consulta]
  apply List.filter_congr
  intro c _
  by_cases e1 : desde ≤ c.fecha_cita <;>
    by_cases e2 : c.fecha_cita ≤ hasta <;>
    by_cases e3 : c.enviado t = false <;>
    by_cases e4 : c.estado = "programada" <;>
    simp [e1, e2, e3, e4]

/-- The example client with `Error` rejections never rejects with
`undefined`. -/
theorem sinRechazoVacio_clienteEjemplo (exito : Nat → Bool) :
    sinRechazoVacio (some (clienteEjemplo exito)) := by
  intro cl hcl n direccion texto
  cases hcl
  simp only [clienteEjemplo]
  split <;> simp

/-- What a tick does to the world: the recorded calls are for the rows the
`SELECT` returned, in order, up to the first call that throws, and for all of
them when no rejection of the client is `undefined` or `null`. -/
theorem tick_spec (fmt : Int → String) (t : Tipo) (w : Mundo) (ahora : Int) :
    ∃ tr : List (Cita × Bool),
      intentosNuevos w (tick fmt t w ahora) = tr ∧
      tr.map Prod.fst <+:
        (if w.isWhatsAppReady then consulta t (ventana t ahora).1 (ventana t ahora).2 w.db
         else []) ∧
      (tick fmt t w ahora).db = marcados t (exitosos tr) w.db ∧
      (tick fmt t w ahora).actualizaciones =
        w.actualizaciones ++ (exitosos tr).map (fun i => (t, i)) ∧
      (sinRechazoVacio w.whatsappClient →
        tr.map Prod.fst =
          (if w.isWhatsAppReady then consulta t (ventana t ahora).1 (ventana t ahora).2 w.db
           else [])) := by
  rw [tick_eq]
  cases hr : w.isWhatsAppReady with
  | false =>
    refine ⟨[], ?_, ?_, ?_, ?_, fun _ => ?_⟩
    · simp [intentosNuevos]
    · simp
    · simp [exitosos, marcados_nil]
    · simp [exitosos]
    · simp
  | true =>
    obtain ⟨tr, h1, h2, h3, h4, _, _, h7⟩ :=
      bucle_spec fmt t (consulta t (ventana t ahora).1 (ventana t ahora).2 w.db) w
    refine ⟨tr, ?_, ?_, ?_, ?_, fun hs => ?_⟩
    · simp only [if_true, intentosNuevos, h1, List.drop_left]
    · simpa using h2
    · simpa using h3
    · simpa using h4
    · simpa using h7 hs

/-- In a table with distinct ids a row is determined by its id. -/
theorem id_inyectivo {db : List Cita} (hid : (db.map Cita.id).Nodup) {a b : Cita}
    (ha : a ∈ db) (hb : b ∈ db) (h : a.id = b.id) : a = b :=
  List.inj_on_of_nodup_map hid ha hb h

/-- The rows of the recorded calls of a tick are rows of the table that the
`SELECT` returned. -/
theorem intento_mem {t : Tipo} {w : Mundo} {ahora : Int} {tr : List (Cita × Bool)}
    (h2 : tr.map Prod.fst <+:
      (if w.isWhatsAppReady then consulta t (ventana t ahora).1 (ventana t ahora).2 w.db
       else []))
    {p : Cita × Bool} (hp : p ∈ tr) :
    w.isWhatsAppReady = true ∧
      p.1 ∈ consulta t (ventana t ahora).1 (ventana t ahora).2 w.db := by
  have hm := h2.subset (List.mem_map_of_mem Prod.fst hp)
  cases hr : w.isWhatsAppReady with
  | false => simp [hr] at hm
  | true => simpa [hr] using hm

/-- With distinct ids, an id is among the successful ones only when the call
recorded for its row returned `true`. -/
theorem exitoso_mem {t : Tipo} {w : Mundo} {ahora : Int} {tr : List (Cita × Bool)}
    (hid : (w.db.map Cita.id).Nodup)
    (h2 : tr.map Prod.fst <+:
      (if w.isWhatsAppReady then consulta t (ventana t ahora).1 (ventana t ahora).2 w.db
       else []))
    {c : Cita} (hc : c ∈ w.db) (hs : c.id ∈ exitosos tr) : (c, true) ∈ tr := by
  simp only [exitosos, List.mem_map, List.mem_filter] at hs
  obtain ⟨p, ⟨hp, hp2⟩, hpid⟩ := hs
  have hpdb : p.1 ∈ w.db := ((consulta_mem _ _ _ _ _).1 (intento_mem h2 hp).2).1
  have hpc : p.1 = c := id_inyectivo hid hpdb hc hpid
  have : p = (c, true) := by
    rcases p with ⟨p1, p2⟩
    simp only at hpc hp2
    rw [hpc, hp2]
  rw [← this]
  exact hp

/-- With distinct ids, a row has one recorded call at most: a call that
returned `false` excludes one that returned `true`. -/
theorem fallido_no_exitoso {t : Tipo} {w : Mundo} {ahora : Int} {tr : List (Cita × Bool)}
    (hid : (w.db.map Cita.id).Nodup)
    (h2 : tr.map Prod.fst <+:
      (if w.isWhatsAppReady then consulta t (ventana t ahora).1 (ventana t ahora).2 w.db
       else []))
    {c : Cita} (hf : (c, false) ∈ tr) : c.id ∉ exitosos tr := by
  intro hs
  have hc : c ∈ w.db := ((consulta_mem _ _ _ _ _).1 (intento_mem h2 hf).2).1
  have ht : (c, true) ∈ tr := exitoso_mem hid h2 hc hs
  have hr := (intento_mem h2 hf).1
  have hnd : (tr.map Prod.fst).Nodup := by
    rw [hr, if_pos rfl] at h2
    exact ((List.Nodup.of_map _ hid).sublist (consulta_sublist _ _ _ _)).sublist h2.sublist
  have := List.inj_on_of_nodup_map hnd ht hf rfl
  cases this

/-! ## C2-C5: what a tick does -/

/-- C2: for a tick of either kind, on a table with distinct ids and whatever
the sends return, each row after the tick is the row before it up to the
kind's sent flag; a flag that was set stays set, and a flag that becomes set
belongs to a row for which this tick recorded a call that returned `true`. -/
theorem tick_solo_cambia_bandera (fmt : Int → String) (t : Tipo) (w : Mundo) (ahora : Int)
    (hid : (w.db.map Cita.id).Nodup) :
    List.Forall₂
      (fun c c' =>
        (c' = match t with
          | .h24 => { c with recordatorio_24h_enviado := c'.recordatorio_24h_enviado }
          | .h2 => { c with recordatorio_2h_enviado := c'.recordatorio_2h_enviado }) ∧
        (c.enviado t = true → c'.enviado t = true) ∧
        (c.enviado t = false → c'.enviado t = true →
          (c, true) ∈ intentosNuevos w (tick fmt t w ahora)))
      w.db (tick fmt t w ahora).db := by
  obtain ⟨tr, h1, h2, h3, _⟩ := tick_spec fmt t w ahora
  rw [h3, h1, marcados, List.forall₂_map_right_iff, List.forall₂_same]
  intro c hc
  by_cases hs : c.id ∈ exitosos tr
  · simp only [hs, if_true]
    refine ⟨?_, fun _ => marcar_enviado t c, fun _ _ => exitoso_mem hid h2 hc hs⟩
    cases t <;> rfl
  · simp only [hs, if_false]
    refine ⟨?_, fun h => h, fun h h' => ?_⟩
    · cases t <;> rfl
    · rw [h] at h'
      cases h'

/-- When no rejection of the client is `undefined` or `null`: for a tick of
either kind with the channel ready, on a table with distinct ids, the rows of
the recorded calls are, in storage order, the rows with
`estado = 'programada'`, the kind's flag unset and `fecha_cita` between the
bounds of the tick; each such row has one call, every other row none, and a
row with `estado` `completada` or `cancelada` has none. With a client present
these are also the calls of `sendMessage`: one per such row, to the formatted
phone of the row. -/
theorem tick_intentos_sin_rechazo (fmt : Int → String) (t : Tipo) (w : Mundo) (ahora : Int)
    (hr : w.isWhatsAppReady = true) (hid : (w.db.map Cita.id).Nodup)
    (hs : sinRechazoVacio w.whatsappClient) :
    (intentosNuevos w (tick fmt t w ahora)).map Prod.fst =
        w.db.filter (fun c => decide (c.estado = "programada" ∧ c.enviado t = false ∧
          (ventana t ahora).1 ≤ c.fecha_cita ∧ c.fecha_cita ≤ (ventana t ahora).2)) ∧
      (∀ c ∈ w.db,
        ((intentosNuevos w (tick fmt t w ahora)).map Prod.fst).count c =
          if c.estado = "programada" ∧ c.enviado t = false ∧
            (ventana t ahora).1 ≤ c.fecha_cita ∧ c.fecha_cita ≤ (ventana t ahora).2
          then 1 else 0) ∧
      (∀ c : Cita, c.estado = "completada" ∨ c.estado = "cancelada" →
        c ∉ (intentosNuevos w (tick fmt t w ahora)).map Prod.fst) ∧
      (∀ cl : Cliente, w.whatsappClient = some cl →
        (tick fmt t w ahora).enviados =
          w.enviados ++
            (w.db.filter (fun c => decide (c.estado = "programada" ∧ c.enviado t = false ∧
              (ventana t ahora).1 ≤ c.fecha_cita ∧ c.fecha_cita ≤ (ventana t ahora).2))).map
              (fun c => (formatearNumero c.cliente_telefono, mensaje fmt t c))) := by
  obtain ⟨tr, h1, _, _, _, h5⟩ := tick_spec fmt t w ahora
  have h2 := h5 hs
  have hl : (intentosNuevos w (tick fmt t w ahora)).map Prod.fst =
      w.db.filter (fun c => decide (c.estado = "programada" ∧ c.enviado t = false ∧
        (ventana t ahora).1 ≤ c.fecha_cita ∧ c.fecha_cita ≤ (ventana t ahora).2)) := by
    rw [h1, h2, hr, if_pos rfl, consulta_eq_filter]
  refine ⟨hl, ?_, ?_, ?_⟩
  · intro c hc
    rw [hl]
    by_cases he : c.estado = "programada" ∧ c.enviado t = false ∧
        (ventana t ahora).1 ≤ c.fecha_cita ∧ c.fecha_cita ≤ (ventana t ahora).2
    · rw [if_pos he, List.count_filter (by simpa using he)]
      exact List.count_eq_one_of_mem (List.Nodup.of_map _ hid) hc
    · rw [if_neg he]
      apply List.count_eq_zero_of_not_mem
      intro hm
      exact he (by simpa using (List.mem_filter.1 hm).2)
  · intro c hc hm
    rw [hl] at hm
    have he := (List.mem_filter.1 hm).2
    simp only [decide_eq_true_eq] at he
    rcases hc with hc | hc
    · rw [hc] at he
      exact absurd he.1 (by decide)
    · rw [hc] at he
      exact absurd he.1 (by decide)
  · intro cl hcl
    rw [← consulta_eq_filter, tick_eq, hr, if_pos rfl]
    exact bucle_enviados fmt t _ w cl hr hcl (hs cl hcl)

/-- C3 (evaluation at the failing input): with the channel ready, two
scheduled rows inside the window with the kind's flag unset, and a client
whose first `sendMessage` rejects with `undefined`, the `SELECT` of the tick
returns both rows, and the tick calls `sendMessage` for the first row only:
the call of `enviarMensajeWhatsApp` throws, the loop ends, no `UPDATE` is
run, and the second row gets no call. So with the 2h tick, and so with the
24h tick on the rows of the next day. -/
theorem tick_excepcion_corta_el_lote :
    (consulta .h2 (ventana .h2 ahoraEjemplo).1 (ventana .h2 ahoraEjemplo).2
        mundoRechazoVacio.db).map Cita.id = [1, 2] ∧
      (recordatorio2h fmtEjemplo mundoRechazoVacio ahoraEjemplo).enviados.map Prod.fst =
        ["593991234567@c.us"] ∧
      intentosNuevos mundoRechazoVacio
        (recordatorio2h fmtEjemplo mundoRechazoVacio ahoraEjemplo) = [] ∧
      (recordatorio2h fmtEjemplo mundoRechazoVacio ahoraEjemplo).actualizaciones = [] ∧
      (recordatorio2h fmtEjemplo mundoRechazoVacio ahoraEjemplo).db = mundoRechazoVacio.db ∧
      (consulta .h24 (ventana .h24 ahoraEjemplo).1 (ventana .h24 ahoraEjemplo).2
        (mundoEjemplo clienteRechazoVacio mundoDesordenado.db).db).map Cita.id = [1, 2] ∧
      (recordatorio24h fmtEjemplo (mundoEjemplo clienteRechazoVacio mundoDesordenado.db)
        ahoraEjemplo).enviados.map Prod.fst = ["593991234567@c.us"] := by
  decide

/-- C4: a tick of either kind run while `isWhatsAppReady` is false leaves the
world as it was: no call of `sendMessage`, no `UPDATE`, the same table. -/
theorem tick_canal_no_listo (fmt : Int → String) (w : Mundo) (ahora : Int)
    (hr : w.isWhatsAppReady = false) :
    recordatorio24h fmt w ahora = w ∧ recordatorio2h fmt w ahora = w ∧
      ∀ t : Tipo,
        (tick fmt t w ahora).enviados = w.enviados ∧
        (tick fmt t w ahora).actualizaciones = w.actualizaciones ∧
        (tick fmt t w ahora).intentos = w.intentos ∧
        (tick fmt t w ahora).db = w.db := by
  have h : ∀ t : Tipo, tick fmt t w ahora = w := by
    intro t
    rw [tick_eq, hr]
    rfl
  refine ⟨h .h24, h .h2, fun t => ?_⟩
  rw [h t]
  exact ⟨rfl, rfl, rfl, rfl⟩

/-- In a tick of either kind on a table with distinct ids, when the call
recorded for row `A` returned `false` and a later call, for row `B`, returned
`true`: the recorded calls are for the rows of the batch in order, up to the
first call that throws, and for every row of the batch when no rejection of
the client is `undefined` or `null`; the row with the id of `B` has the kind's
flag set after the tick, and the row with the id of `A` has it unset. -/
theorem tick_fallo_no_impide_exito (fmt : Int → String) (t : Tipo) (w : Mundo) (ahora : Int)
    (hid : (w.db.map Cita.id).Nodup) (A B : Cita) (i j : Nat) (hij : i < j)
    (hA : (intentosNuevos w (tick fmt t w ahora))[i]? = some (A, false))
    (hB : (intentosNuevos w (tick fmt t w ahora))[j]? = some (B, true)) :
    ((intentosNuevos w (tick fmt t w ahora)).map Prod.fst <+:
          consulta t (ventana t ahora).1 (ventana t ahora).2 w.db ∧
        (sinRechazoVacio w.whatsappClient →
          (intentosNuevos w (tick fmt t w ahora)).map Prod.fst =
            consulta t (ventana t ahora).1 (ventana t ahora).2 w.db)) ∧
      (B.marcar t ∈ (tick fmt t w ahora).db ∧
        ∀ c ∈ (tick fmt t w ahora).db, c.id = B.id → c.enviado t = true) ∧
      (A ∈ (tick fmt t w ahora).db ∧
        ∀ c ∈ (tick fmt t w ahora).db, c.id = A.id → c.enviado t = false) := by
  have _ := hij
  obtain ⟨tr, h1, h2, h3, _, h5⟩ := tick_spec fmt t w ahora
  rw [h1] at hA hB
  rw [h1, h3]
  have hAm : (A, false) ∈ tr := List.getElem?_mem hA
  have hBm : (B, true) ∈ tr := List.getElem?_mem hB
  have hr := (intento_mem h2 hAm).1
  have hAc := (consulta_mem _ _ _ _ _).1 (intento_mem h2 hAm).2
  have hBc := (consulta_mem _ _ _ _ _).1 (intento_mem h2 hBm).2
  have hBs : B.id ∈ exitosos tr := by
    simp only [exitosos, List.mem_map, List.mem_filter]
    exact ⟨(B, true), ⟨hBm, rfl⟩, rfl⟩
  have hAs : A.id ∉ exitosos tr := fallido_no_exitoso hid h2 hAm
  refine ⟨⟨?_, fun hs => ?_⟩, ⟨?_, ?_⟩, ⟨?_, ?_⟩⟩
  · rw [hr, if_pos rfl] at h2
    exact h2
  · rw [h5 hs, hr, if_pos rfl]
  · exact List.mem_map.2 ⟨B, hBc.1, by simp only [hBs, if_true]⟩
  · intro c hc hcB
    obtain ⟨c0, hc0, rfl⟩ := List.mem_map.1 hc
    by_cases h0 : c0.id ∈ exitosos tr
    · simp only [h0, if_true, marcar_enviado]
    · simp only [h0, if_false] at hcB
      rw [hcB] at h0
      exact absurd hBs h0
  · exact List.mem_map.2 ⟨A, hAc.1, by simp only [hAs, if_false]⟩
  · intro c hc hcA
    obtain ⟨c0, hc0, rfl⟩ := List.mem_map.1 hc
    by_cases h0 : c0.id ∈ exitosos tr
    · simp only [h0, if_true, marcar_id] at hcA
      rw [hcA] at h0
      exact absurd h0 hAs
    · simp only [h0, if_false] at hcA ⊢
      rw [id_inyectivo hid hc0 hAc.1 hcA]
      exact hAc.2.2.2.1

/-- C5 (evaluation at the failing input): four scheduled rows are inside the
window of the 2h tick; the send for row 1 fails with an `Error` object, the
send for row 2 succeeds, and the send for row 3 rejects with `undefined`.
The calls for rows 1 and 2 return `false` and `true`, row 2 is marked and
row 1 is not; the call for row 3 throws and the loop ends there: row 4 gets no
call, so the loop does not go through every row of the batch. -/
theorem tick_excepcion_tras_fallo_y_exito :
    (consulta .h2 (ventana .h2 ahoraEjemplo).1 (ventana .h2 ahoraEjemplo).2
        mundoCuatroCitas.db).map Cita.id = [1, 2, 3, 4] ∧
      (intentosNuevos mundoCuatroCitas
          (recordatorio2h fmtEjemplo mundoCuatroCitas ahoraEjemplo)).map
          (fun p => (p.1.id, p.2)) = [(1, false), (2, true)] ∧
      (recordatorio2h fmtEjemplo mundoCuatroCitas ahoraEjemplo).enviados.map Prod.fst =
        ["593991111111@c.us", "593992222222@c.us", "593993333333@c.us"] ∧
      (recordatorio2h fmtEjemplo mundoCuatroCitas ahoraEjemplo).db.map
          (fun c => (c.id, c.recordatorio_2h_enviado)) =
        [(1, false), (2, true), (3, false), (4, false)] := by
  decide

/-! ## Witnesses for C1-C5 -/

/-- The address computed for `099 123-4567` is `593991234567@c.us`. -/
theorem enviarMensajeWhatsApp_direccion_witness :
    (enviarMensajeWhatsApp (mundoEjemplo (clienteEjemplo fun _ => true) [])
        "099 123-4567" "hola").2.enviados = [("593991234567@c.us", "hola")] :=
  (enviarMensajeWhatsApp_direccion (mundoEjemplo (clienteEjemplo fun _ => true) [])
    (clienteEjemplo fun _ => true) "099 123-4567" "hola" rfl rfl (by decide)).trans
    (by decide)

/-- The 2h tick on the two-row world: the first row keeps its flag, the second
gets it. -/
theorem tick_solo_cambia_bandera_witness :
    (mundoDosCitas.db.map Cita.id).Nodup ∧
      List.Forall₂
        (fun c c' =>
          (c' = { c with recordatorio_2h_enviado := c'.recordatorio_2h_enviado }) ∧
          (c.enviado .h2 = true → c'.enviado .h2 = true) ∧
          (c.enviado .h2 = false → c'.enviado .h2 = true →
            (c, true) ∈ intentosNuevos mundoDosCitas
              (tick fmtEjemplo .h2 mundoDosCitas ahoraEjemplo)))
        mundoDosCitas.db (tick fmtEjemplo .h2 mundoDosCitas ahoraEjemplo).db :=
  ⟨by decide,
    tick_solo_cambia_bandera fmtEjemplo .h2 mundoDosCitas ahoraEjemplo (by decide)⟩

/-- The 2h tick on the two-row world, whose client rejects with `Error`
objects only, makes a call for each of the two rows. -/
theorem tick_intentos_sin_rechazo_witness :
    (intentosNuevos mundoDosCitas
        (tick fmtEjemplo .h2 mundoDosCitas ahoraEjemplo)).map Prod.fst =
      [citaEjemplo 1 "099 123-4567" (fechaHora 2024 6 1 12 0 0),
       citaEjemplo 2 "0987654321" (fechaHora 2024 6 1 12 10 0)] :=
  (tick_intentos_sin_rechazo fmtEjemplo .h2 mundoDosCitas ahoraEjemplo rfl
    (by decide) (sinRechazoVacio_clienteEjemplo _)).1.trans (by decide)

/-- A tick on a world whose channel is not ready returns that world. -/
theorem tick_canal_no_listo_witness :
    recordatorio24h fmtEjemplo { mundoDosCitas with isWhatsAppReady := false } ahoraEjemplo =
        { mundoDosCitas with isWhatsAppReady := false } ∧
      recordatorio2h fmtEjemplo { mundoDosCitas with isWhatsAppReady := false } ahoraEjemplo =
        { mundoDosCitas with isWhatsAppReady := false } :=
  ⟨(tick_canal_no_listo fmtEjemplo { mundoDosCitas with isWhatsAppReady := false }
      ahoraEjemplo rfl).1,
    (tick_canal_no_listo fmtEjemplo { mundoDosCitas with isWhatsAppReady := false }
      ahoraEjemplo rfl).2.1⟩

/-- In the 2h tick on the two-row world the first call fails and the second
succeeds: the second row is marked, the first is not. -/
theorem tick_fallo_no_impide_exito_witness :
    (intentosNuevos mundoDosCitas (tick fmtEjemplo .h2 mundoDosCitas ahoraEjemplo))[0]? =
        some (citaEjemplo 1 "099 123-4567" (fechaHora 2024 6 1 12 0 0), false) ∧
      (intentosNuevos mundoDosCitas (tick fmtEjemplo .h2 mundoDosCitas ahoraEjemplo))[1]? =
        some (citaEjemplo 2 "0987654321" (fechaHora 2024 6 1 12 10 0), true) ∧
      (citaEjemplo 2 "0987654321" (fechaHora 2024 6 1 12 10 0)).marcar .h2 ∈
        (tick fmtEjemplo .h2 mundoDosCitas ahoraEjemplo).db ∧
      citaEjemplo 1 "099 123-4567" (fechaHora 2024 6 1 12 0 0) ∈
        (tick fmtEjemplo .h2 mundoDosCitas ahoraEjemplo).db :=
  have h := tick_fallo_no_impide_exito fmtEjemplo .h2 mundoDosCitas ahoraEjemplo (by decide)
    (citaEjemplo 1 "099 123-4567" (fechaHora 2024 6 1 12 0 0))
    (citaEjemplo 2 "0987654321" (fechaHora 2024 6 1 12 10 0)) 0 1 (by decide)
    (by decide) (by decide)
  ⟨by decide, by decide, h.2.1.1, h.2.2.1⟩

/-! ## C6-C9: the windows -/

/-- With the channel ready and no rejection of the client `undefined` or
`null`, the rows of the calls of a tick are the rows the `SELECT` returns
between the bounds of the tick. -/
theorem intentos_mem_iff (fmt : Int → String) (t : Tipo) (w : Mundo) (ahora : Int)
    (hr : w.isWhatsAppReady = true) (hs : sinRechazoVacio w.whatsappClient) (c : Cita) :
    c ∈ (intentosNuevos w (tick fmt t w ahora)).map Prod.fst ↔
      c ∈ w.db ∧ c.estado = "programada" ∧ c.enviado t = false ∧
        (ventana t ahora).1 ≤ c.fecha_cita ∧ c.fecha_cita ≤ (ventana t ahora).2 := by
  obtain ⟨tr, h1, _, _, _, h5⟩ := tick_spec fmt t w ahora
  rw [h1, h5 hs, hr, if_pos rfl, consulta_mem]
  constructor
  · rintro ⟨a, b, c, d, e⟩
    exact ⟨a, e, d, b, c⟩
  · rintro ⟨a, e, d, b, c⟩
    exact ⟨a, b, c, d, e⟩

/-- The rows of the calls of a tick are rows its `SELECT` returned, whatever
the sends do. -/
theorem intentos_seleccionados (fmt : Int → String) (t : Tipo) (w : Mundo) (ahora : Int)
    (c : Cita) (hc : c ∈ (intentosNuevos w (tick fmt t w ahora)).map Prod.fst) :
    c ∈ w.db ∧ c.estado = "programada" ∧ c.enviado t = false ∧
      (ventana t ahora).1 ≤ c.fecha_cita ∧ c.fecha_cita ≤ (ventana t ahora).2 := by
  obtain ⟨tr, h1, h2, _, _⟩ := tick_spec fmt t w ahora
  rw [h1] at hc
  obtain ⟨p, hp, rfl⟩ := List.mem_map.1 hc
  have hm := (consulta_mem _ _ _ _ _).1 (intento_mem h2 hp).2
  exact ⟨hm.1, hm.2.2.2.2, hm.2.2.2.1, hm.2.1, hm.2.2.1⟩

/-- The rows the `SELECT` of a tick returns: scheduled, the kind's flag unset,
`fecha_cita` between the bounds, both included. -/
theorem seleccion_mem_iff (t : Tipo) (w : Mundo) (ahora : Int) (c : Cita) :
    c ∈ consulta t (ventana t ahora).1 (ventana t ahora).2 w.db ↔
      c ∈ w.db ∧ c.estado = "programada" ∧ c.enviado t = false ∧
        (ventana t ahora).1 ≤ c.fecha_cita ∧ c.fecha_cita ≤ (ventana t ahora).2 := by
  rw [consulta_mem]
  constructor
  · rintro ⟨a, b, c, d, e⟩
    exact ⟨a, e, d, b, c⟩
  · rintro ⟨a, e, d, b, c⟩
    exact ⟨a, b, c, d, e⟩

/-- With the channel ready a tick is its loop over the rows its `SELECT`
returns. -/
theorem tick_listo (fmt : Int → String) (t : Tipo) (w : Mundo) (ahora : Int)
    (hr : w.isWhatsAppReady = true) :
    tick fmt t w ahora =
      bucle fmt t (consulta t (ventana t ahora).1 (ventana t ahora).2 w.db) w := by
  rw [tick_eq, hr, if_pos rfl]

/-- The bounds of the 24h tick are those of the 2h style of reckoning moved
by the five hours between UTC and `America/Guayaquil`: the tick selects on
the civil time of the row from civil now plus 5 hours to civil now plus 29
hours. -/
theorem ventana24h_desfasada (ahora : Int) :
    ventana .h24 ahora =
      (formatoEcuador ahora + 5 * 3600, formatoEcuador ahora + 5 * 3600 + 24 * 3600) := by
  simp only [ventana, formatoUTC, formatoEcuador, Prod.mk.injEq]
  constructor <;> omega

/-- C6 (evaluation at the failing input): at the instant when it is
`2024-06-01 10:00:00` in `America/Guayaquil`, a scheduled row at
`2024-06-01 12:00:00`, two hours ahead and with no 24h reminder sent, lies
between civil now and civil now plus 24 hours, and the 24h tick does not
select it and sends nothing, because its bounds are `2024-06-01 15:00:00` and
`2024-06-02 15:00:00`, the UTC rendering of the instant; a row at
`2024-06-02 14:00:00`, 28 hours ahead, is selected. -/
theorem recordatorio24h_compara_con_utc :
    formatoEcuador ahoraEjemplo = fechaHora 2024 6 1 10 0 0 ∧
      (formatoEcuador ahoraEjemplo ≤ fechaHora 2024 6 1 12 0 0 ∧
        fechaHora 2024 6 1 12 0 0 ≤ formatoEcuador ahoraEjemplo + 24 * 3600) ∧
      ventana .h24 ahoraEjemplo = (fechaHora 2024 6 1 15 0 0, fechaHora 2024 6 2 15 0 0) ∧
      (recordatorio24h fmtEjemplo
          (mundoEjemplo (clienteEjemplo fun _ => true)
            [citaEjemplo 1 "0991234567" (fechaHora 2024 6 1 12 0 0)])
          ahoraEjemplo).enviados = [] ∧
      (intentosNuevos
          (mundoEjemplo (clienteEjemplo fun _ => true)
            [citaEjemplo 1 "0991234567" (fechaHora 2024 6 1 12 0 0),
             citaEjemplo 2 "0987654321" (fechaHora 2024 6 2 14 0 0)])
          (recordatorio24h fmtEjemplo
            (mundoEjemplo (clienteEjemplo fun _ => true)
              [citaEjemplo 1 "0991234567" (fechaHora 2024 6 1 12 0 0),
               citaEjemplo 2 "0987654321" (fechaHora 2024 6 2 14 0 0)])
            ahoraEjemplo)).map Prod.fst =
        [citaEjemplo 2 "0987654321" (fechaHora 2024 6 2 14 0 0)] := by
  decide

/-- C7 (counterexample): a scheduled row at `2024-06-02 10:00:00` with no 24h
reminder sent is selected by the 24h tick run at the instant that
`toISOString` renders as `2024-06-01T10:00:00.000Z`, exactly 24 hours before
it; it is selected as well by the tick run at the instant when it is
`2024-06-01 10:00:00` in `America/Guayaquil`. -/
theorem ventana24h_incluye_el_final :
    (ventana .h24 (fechaHora 2024 6 1 10 0 0 * 1000)).1 = fechaHora 2024 6 1 10 0 0 ∧
      (intentosNuevos
          (mundoEjemplo (clienteEjemplo fun _ => true)
            [citaEjemplo 1 "0991234567" (fechaHora 2024 6 2 10 0 0)])
          (recordatorio24h fmtEjemplo
            (mundoEjemplo (clienteEjemplo fun _ => true)
              [citaEjemplo 1 "0991234567" (fechaHora 2024 6 2 10 0 0)])
            (fechaHora 2024 6 1 10 0 0 * 1000))).map Prod.fst =
        [citaEjemplo 1 "0991234567" (fechaHora 2024 6 2 10 0 0)] ∧
      (intentosNuevos
          (mundoEjemplo (clienteEjemplo fun _ => true)
            [citaEjemplo 1 "0991234567" (fechaHora 2024 6 2 10 0 0)])
          (recordatorio24h fmtEjemplo
            (mundoEjemplo (clienteEjemplo fun _ => true)
              [citaEjemplo 1 "0991234567" (fechaHora 2024 6 2 10 0 0)])
            ahoraEjemplo)).map Prod.fst =
        [citaEjemplo 1 "0991234567" (fechaHora 2024 6 2 10 0 0)] := by
  decide

/-- C7 (amended): for every now, with the channel ready, the 24h tick loops
over the rows its `SELECT` returns, and a row is selected exactly when it is
scheduled, has no 24h reminder sent and its `fecha_cita` lies in the closed
interval from the lower bound of the tick to that bound plus 24 hours, both
ends included; every row the tick makes a call for is such a row, and when
no call throws every such row has its call; when the lower bound is `2024-06-01 10:00:00` the upper one is
`2024-06-02 10:00:00`. -/
theorem ventana24h_cerrada (fmt : Int → String) (w : Mundo) (ahora : Int)
    (hr : w.isWhatsAppReady = true) :
    (ventana .h24 ahora).2 = (ventana .h24 ahora).1 + 24 * 3600 ∧
      recordatorio24h fmt w ahora =
        bucle fmt .h24
          (consulta .h24 (ventana .h24 ahora).1 ((ventana .h24 ahora).1 + 24 * 3600) w.db) w ∧
      (∀ c : Cita,
        c ∈ consulta .h24 (ventana .h24 ahora).1 ((ventana .h24 ahora).1 + 24 * 3600) w.db ↔
          c ∈ w.db ∧ c.estado = "programada" ∧ c.recordatorio_24h_enviado = false ∧
            (ventana .h24 ahora).1 ≤ c.fecha_cita ∧
            c.fecha_cita ≤ (ventana .h24 ahora).1 + 24 * 3600) ∧
      (∀ c : Cita,
        c ∈ (intentosNuevos w (recordatorio24h fmt w ahora)).map Prod.fst →
          c ∈ w.db ∧ c.estado = "programada" ∧ c.recordatorio_24h_enviado = false ∧
            (ventana .h24 ahora).1 ≤ c.fecha_cita ∧
            c.fecha_cita ≤ (ventana .h24 ahora).1 + 24 * 3600) ∧
      (sinRechazoVacio w.whatsappClient → ∀ c : Cita,
        c ∈ (intentosNuevos w (recordatorio24h fmt w ahora)).map Prod.fst ↔
          c ∈ w.db ∧ c.estado = "programada" ∧ c.recordatorio_24h_enviado = false ∧
            (ventana .h24 ahora).1 ≤ c.fecha_cita ∧
            c.fecha_cita ≤ (ventana .h24 ahora).1 + 24 * 3600) ∧
      ((ventana .h24 ahora).1 = fechaHora 2024 6 1 10 0 0 →
        (ventana .h24 ahora).2 = fechaHora 2024 6 2 10 0 0) := by
  have h2 : (ventana .h24 ahora).2 = (ventana .h24 ahora).1 + 24 * 3600 := by
    simp only [ventana, formatoUTC]
    omega
  refine ⟨h2, ?_, fun c => ?_, fun c hc => ?_, fun hs c => ?_, fun h1 => ?_⟩
  · have h := tick_listo fmt .h24 w ahora hr
    rw [h2] at h
    exact h
  · have h := seleccion_mem_iff .h24 w ahora c
    rw [h2] at h
    exact h
  · have h := intentos_seleccionados fmt .h24 w ahora c hc
    rw [h2] at h
    exact h
  · have h := intentos_mem_iff fmt .h24 w ahora hr hs c
    rw [h2] at h
    exact h
  · rw [h2, h1]
    decide

/-- The 24h tick at the instant rendered as `2024-06-01T10:00:00.000Z` has the
bounds `2024-06-01 10:00:00` and `2024-06-02 10:00:00`. -/
theorem ventana24h_cerrada_witness :
    (ventana .h24 (fechaHora 2024 6 1 10 0 0 * 1000)).1 = fechaHora 2024 6 1 10 0 0 ∧
      (ventana .h24 (fechaHora 2024 6 1 10 0 0 * 1000)).2 = fechaHora 2024 6 2 10 0 0 :=
  ⟨by decide,
    (ventana24h_cerrada fmtEjemplo mundoDosCitas (fechaHora 2024 6 1 10 0 0 * 1000)
      rfl).2.2.2.2.2 (by decide)⟩

/-- C8: for every now, with the channel ready, the bounds of the 2h tick are
civil now plus 1 h 45 min and civil now plus 2 h 15 min, where civil now is
the time in `America/Guayaquil`; the tick loops over the rows its `SELECT`
returns, and a row is selected exactly when it is scheduled, has no 2h
reminder sent and its `fecha_cita` lies between the two bounds, both
included; every row the tick makes a call for is such a row, and when no
call throws every such row has its call; for civil now `2024-06-01 10:00:00` the bounds are `2024-06-01 11:45:00` and
`2024-06-01 12:15:00`. -/
theorem ventana2h_cerrada (fmt : Int → String) (w : Mundo) (ahora : Int)
    (hr : w.isWhatsAppReady = true) :
    ventana .h2 ahora =
        (formatoEcuador ahora + 2 * 3600 - 15 * 60,
         formatoEcuador ahora + 2 * 3600 + 15 * 60) ∧
      recordatorio2h fmt w ahora =
        bucle fmt .h2
          (consulta .h2 (formatoEcuador ahora + 2 * 3600 - 15 * 60)
            (formatoEcuador ahora + 2 * 3600 + 15 * 60) w.db) w ∧
      (∀ c : Cita,
        c ∈ consulta .h2 (formatoEcuador ahora + 2 * 3600 - 15 * 60)
            (formatoEcuador ahora + 2 * 3600 + 15 * 60) w.db ↔
          c ∈ w.db ∧ c.estado = "programada" ∧ c.recordatorio_2h_enviado = false ∧
            formatoEcuador ahora + 2 * 3600 - 15 * 60 ≤ c.fecha_cita ∧
            c.fecha_cita ≤ formatoEcuador ahora + 2 * 3600 + 15 * 60) ∧
      (∀ c : Cita,
        c ∈ (intentosNuevos w (recordatorio2h fmt w ahora)).map Prod.fst →
          c ∈ w.db ∧ c.estado = "programada" ∧ c.recordatorio_2h_enviado = false ∧
            formatoEcuador ahora + 2 * 3600 - 15 * 60 ≤ c.fecha_cita ∧
            c.fecha_cita ≤ formatoEcuador ahora + 2 * 3600 + 15 * 60) ∧
      (sinRechazoVacio w.whatsappClient → ∀ c : Cita,
        c ∈ (intentosNuevos w (recordatorio2h fmt w ahora)).map Prod.fst ↔
          c ∈ w.db ∧ c.estado = "programada" ∧ c.recordatorio_2h_enviado = false ∧
            formatoEcuador ahora + 2 * 3600 - 15 * 60 ≤ c.fecha_cita ∧
            c.fecha_cita ≤ formatoEcuador ahora + 2 * 3600 + 15 * 60) ∧
      (formatoEcuador ahora = fechaHora 2024 6 1 10 0 0 →
        ventana .h2 ahora = (fechaHora 2024 6 1 11 45 0, fechaHora 2024 6 1 12 15 0)) := by
  have hv : ventana .h2 ahora =
      (formatoEcuador ahora + 2 * 3600 - 15 * 60,
       formatoEcuador ahora + 2 * 3600 + 15 * 60) := by
    simp only [ventana, formatoEcuador, Prod.mk.injEq]
    constructor <;> omega
  refine ⟨hv, ?_, fun c => ?_, fun c hc => ?_, fun hs c => ?_, fun h1 => ?_⟩
  · have h := tick_listo fmt .h2 w ahora hr
    rw [hv] at h
    exact h
  · have h := seleccion_mem_iff .h2 w ahora c
    rw [hv] at h
    exact h
  · have h := intentos_seleccionados fmt .h2 w ahora c hc
    rw [hv] at h
    exact h
  · have h := intentos_mem_iff fmt .h2 w ahora hr hs c
    rw [hv] at h
    exact h
  · rw [hv, h1]
    decide

/-- The 2h tick at the instant when it is `2024-06-01 10:00:00` in
`America/Guayaquil` has the bounds `11:45:00` and `12:15:00` of that day. -/
theorem ventana2h_cerrada_witness :
    formatoEcuador ahoraEjemplo = fechaHora 2024 6 1 10 0 0 ∧
      ventana .h2 ahoraEjemplo = (fechaHora 2024 6 1 11 45 0, fechaHora 2024 6 1 12 15 0) :=
  ⟨by decide, (ventana2h_cerrada fmtEjemplo mundoDosCitas ahoraEjemplo rfl).2.2.2.2.2 (by decide)⟩

/-- C9: with 2h ticks every 5 minutes from the instant `t0` on, every time `t`
not earlier than civil `t0` plus 1 h 45 min lies between the bounds of the
tick number `k` for some `k`. -/
theorem ventana2h_sin_huecos (t0 t : Int)
    (h : formatoEcuador t0 + (3600 + 45 * 60) ≤ t) :
    ∃ k : Nat,
      (ventana .h2 (t0 + k * (5 * 60 * 1000))).1 ≤ t ∧
        t ≤ (ventana .h2 (t0 + k * (5 * 60 * 1000))).2 := by
  simp only [formatoEcuador] at h
  obtain ⟨k, hk⟩ := Int.eq_ofNat_of_zero_le
    (show 0 ≤ (t - (t0 / 1000 - 5 * 3600 + (3600 + 45 * 60))) / 300 by omega)
  refine ⟨k, ?_⟩
  simp only [ventana, formatoEcuador]
  constructor <;> omega

/-- An appointment at `2024-06-01 13:07:00` is inside the window of the tick
number 16, the one of `11:20:00`. -/
theorem ventana2h_sin_huecos_witness :
    formatoEcuador ahoraEjemplo + (3600 + 45 * 60) ≤ fechaHora 2024 6 1 13 7 0 ∧
      ∃ k : Nat,
        (ventana .h2 (ahoraEjemplo + k * (5 * 60 * 1000))).1 ≤ fechaHora 2024 6 1 13 7 0 ∧
          fechaHora 2024 6 1 13 7 0 ≤ (ventana .h2 (ahoraEjemplo + k * (5 * 60 * 1000))).2 :=
  ⟨by decide, ventana2h_sin_huecos ahoraEjemplo (fechaHora 2024 6 1 13 7 0) (by decide)⟩

/-! ## C13: the fields a tick leaves alone -/

/-- C13: for a tick of either kind, whatever the table and whatever the sends
return, each row after the tick has the `fecha_cita` of the row before it,
and the same `id`, `cliente_nombre`, `cliente_telefono`, `servicio`,
`precio_servicio`, `notas`, `estado`, `created_at`, `completed_at` and flag
of the other kind. -/
theorem tick_conserva_campos (fmt : Int → String) (t : Tipo) (w : Mundo) (ahora : Int) :
    List.Forall₂
      (fun c c' =>
        c'.fecha_cita = c.fecha_cita ∧ c'.id = c.id ∧
        c'.cliente_nombre = c.cliente_nombre ∧
        c'.cliente_telefono = c.cliente_telefono ∧
        c'.servicio = c.servicio ∧ c'.precio_servicio = c.precio_servicio ∧
        c'.notas = c.notas ∧ c'.estado = c.estado ∧
        c'.created_at = c.created_at ∧ c'.completed_at = c.completed_at ∧
        (match t with
          | .h24 => c'.recordatorio_2h_enviado = c.recordatorio_2h_enviado
          | .h2 => c'.recordatorio_24h_enviado = c.recordatorio_24h_enviado))
      w.db (tick fmt t w ahora).db := by
  obtain ⟨tr, _, _, h3, _⟩ := tick_spec fmt t w ahora
  rw [h3, marcados, List.forall₂_map_right_iff, List.forall₂_same]
  intro c _
  by_cases hs : c.id ∈ exitosos tr
  · rw [if_pos hs]
    cases t <;> exact ⟨rfl, rfl, rfl, rfl, rfl, rfl, rfl, rfl, rfl, rfl, rfl⟩
  · rw [if_neg hs]
    cases t <;> exact ⟨rfl, rfl, rfl, rfl, rfl, rfl, rfl, rfl, rfl, rfl, rfl⟩

/-! ## C14: the normalisation applied twice -/

theorem soloDigitos_digitos (s : List Char) : ∀ c ∈ soloDigitos s, c.isDigit = true := by
  intro c hc
  exact (List.mem_filter.1 hc).2

/-- The address computed for a text of digits that starts with `593` is the
text followed by `@c.us`. -/
theorem formatearNumero_de_digitos (d : List Char) (hd : ∀ c ∈ d, c.isDigit = true)
    (hp : "593".data <+: d) :
    formatearNumero (String.mk d) = String.mk (d ++ "@c.us".data) := by
  have ha : '@' ∉ (String.mk d).data := by
    intro hm
    have := hd '@' hm
    revert this
    decide
  have hf : soloDigitos (String.mk d).data = d := by
    show List.filter Char.isDigit d = d
    exact List.filter_eq_self.2 hd
  rw [formatearNumero_sin_arroba _ ha, hf, if_pos hp]

/-- The address computed for a text that contains `@` is the text. -/
theorem formatearNumero_con_arroba (numero : String) (h : '@' ∈ numero.data) :
    formatearNumero numero = numero := by
  have hc : numero.data.contains '@' = true := by
    simpa using h
  unfold formatearNumero
  simp only [hc, if_true]

/-- The digits in front of `@c.us` in the address of a text without `@`. -/
theorem formatearNumero_forma (s : String) (hs : '@' ∉ s.data) :
    ∃ d : List Char, formatearNumero s = String.mk (d ++ "@c.us".data) ∧
      (∀ c ∈ d, c.isDigit = true) ∧ "593".data <+: d := by
  rw [formatearNumero_sin_arroba s hs]
  have hD := soloDigitos_digitos s.data
  by_cases h1 : "593".data <+: soloDigitos s.data
  · exact ⟨soloDigitos s.data, by rw [if_pos h1], hD, h1⟩
  · have h593 : ∀ c ∈ "593".data, c.isDigit = true := by decide
    by_cases h2 : "0".data <+: soloDigitos s.data
    · refine ⟨"593".data ++ (soloDigitos s.data).tail, by rw [if_neg h1, if_pos h2], ?_,
        List.prefix_append _ _⟩
      intro c hc
      rcases List.mem_append.1 hc with hc | hc
      · exact h593 c hc
      · exact hD c (List.mem_of_mem_tail hc)
    · refine ⟨"593".data ++ soloDigitos s.data, by rw [if_neg h1, if_neg h2], ?_,
        List.prefix_append _ _⟩
      intro c hc
      rcases List.mem_append.1 hc with hc | hc
      · exact h593 c hc
      · exact hD c hc

/-- C14: for a phone text `s` without `@` whose address is `d` followed by
`@c.us`, `d` has only digits and starts with `593`, the address of `d` is
again `d` followed by `@c.us`, and the address of `d` followed by `@c.us` is
that same text. -/
theorem formatearNumero_idempotente (s : String) (d : List Char) (hs : '@' ∉ s.data)
    (h : formatearNumero s = String.mk (d ++ "@c.us".data)) :
    (∀ c ∈ d, '0' ≤ c ∧ c ≤ '9') ∧ "593".data <+: d ∧
      formatearNumero (String.mk d) = String.mk (d ++ "@c.us".data) ∧
      formatearNumero (String.mk (d ++ "@c.us".data)) = String.mk (d ++ "@c.us".data) := by
  obtain ⟨d0, h0, hd, hp⟩ := formatearNumero_forma s hs
  have hdd : d = d0 := by
    rw [h0] at h
    have hl : d0 ++ "@c.us".data = d ++ "@c.us".data := congrArg String.data h
    exact (List.append_cancel_right hl).symm
  subst hdd
  refine ⟨fun c hc => (isDigit_iff c).1 (hd c hc), hp, formatearNumero_de_digitos d hd hp, ?_⟩
  apply formatearNumero_con_arroba
  show '@' ∈ d ++ "@c.us".data
  exact List.mem_append_right _ (by decide)

/-- The address of `099 123-4567` is `593991234567@c.us`; computing the
address of `593991234567`, or of the address itself, gives it again. -/
theorem formatearNumero_idempotente_witness :
    formatearNumero "099 123-4567" = "593991234567@c.us" ∧
      formatearNumero "593991234567" = "593991234567@c.us" ∧
      formatearNumero "593991234567@c.us" = "593991234567@c.us" :=
  have h := formatearNumero_idempotente "099 123-4567" "593991234567".data
    (by decide) (by decide)
  ⟨by decide, h.2.2.1, h.2.2.2⟩

/-! ## C12: the order of the calls -/

/-- C12 (counterexample): with the row of `10:00` stored before the row of
`09:30`, both selected, the 24h tick and the 2h tick make the call for the
`10:00` row first and the call for the `09:30` row second, and `sendMessage`
is called in that order. -/
theorem tick_no_ordena_por_fecha :
    fechaHora 2024 6 2 9 30 0 < fechaHora 2024 6 2 10 0 0 ∧
      (intentosNuevos mundoDesordenado
          (recordatorio24h fmtEjemplo mundoDesordenado ahoraEjemplo)).map
          (fun p => p.1.fecha_cita) =
        [fechaHora 2024 6 2 10 0 0, fechaHora 2024 6 2 9 30 0] ∧
      (intentosNuevos mundoDesordenado
          (recordatorio2h fmtEjemplo mundoDesordenado ahoraSegundoDia)).map
          (fun p => p.1.fecha_cita) =
        [fechaHora 2024 6 2 10 0 0, fechaHora 2024 6 2 9 30 0] ∧
      (recordatorio2h fmtEjemplo mundoDesordenado ahoraSegundoDia).enviados.map Prod.fst =
        ["593991234567@c.us", "593987654321@c.us"] := by
  decide

/-- A pair that is a sublist of `l1 ++ l2` and whose second element is in `l1`
but not in `l2` is a sublist of `l1`. -/
theorem par_sublist_del_prefijo {a b : Cita} {l1 l2 : List Cita}
    (h : [a, b].Sublist (l1 ++ l2)) (hb : b ∉ l2) : [a, b].Sublist l1 := by
  obtain ⟨p, q, hpq, hp, hq⟩ := List.sublist_append_iff.1 h
  rcases q with _ | ⟨x, q⟩
  · rw [List.append_nil] at hpq
    rw [hpq]
    exact hp
  · exfalso
    apply hb
    have hbq : b ∈ x :: q := by
      rcases p with _ | ⟨y, p⟩
      · rw [List.nil_append] at hpq
        rw [← hpq]
        simp
      · rcases p with _ | ⟨z, p⟩
        · simp only [List.cons_append, List.nil_append, List.cons.injEq] at hpq
          rw [hpq.2.1]
          simp
        · simp only [List.cons_append, List.cons.injEq] at hpq
          have := hpq.2.2
          cases p <;> simp at this
    exact hq.subset hbq

/-- C12 (amended): for a tick of either kind with the channel ready, the
calls are made in the order in which the rows are stored: the rows of the
calls are a sublist of the table and a prefix of the rows the `SELECT`
returns; of two selected rows, on a table with distinct ids, when the one
stored second has a call the one stored first has its call before it,
whatever their `fecha_cita`; and when no call throws both have their calls,
in that order. -/
theorem tick_orden_de_almacenamiento (fmt : Int → String) (t : Tipo) (w : Mundo)
    (ahora : Int) (hr : w.isWhatsAppReady = true) :
    ((intentosNuevos w (tick fmt t w ahora)).map Prod.fst).Sublist w.db ∧
      (intentosNuevos w (tick fmt t w ahora)).map Prod.fst <+:
        consulta t (ventana t ahora).1 (ventana t ahora).2 w.db ∧
      (∀ a b : Cita, (w.db.map Cita.id).Nodup → [a, b].Sublist w.db →
        (a.estado = "programada" ∧ a.enviado t = false ∧
          (ventana t ahora).1 ≤ a.fecha_cita ∧ a.fecha_cita ≤ (ventana t ahora).2) →
        (b.estado = "programada" ∧ b.enviado t = false ∧
          (ventana t ahora).1 ≤ b.fecha_cita ∧ b.fecha_cita ≤ (ventana t ahora).2) →
        b ∈ (intentosNuevos w (tick fmt t w ahora)).map Prod.fst →
        [a, b].Sublist ((intentosNuevos w (tick fmt t w ahora)).map Prod.fst)) ∧
      (sinRechazoVacio w.whatsappClient → ∀ a b : Cita, [a, b].Sublist w.db →
        (a.estado = "programada" ∧ a.enviado t = false ∧
          (ventana t ahora).1 ≤ a.fecha_cita ∧ a.fecha_cita ≤ (ventana t ahora).2) →
        (b.estado = "programada" ∧ b.enviado t = false ∧
          (ventana t ahora).1 ≤ b.fecha_cita ∧ b.fecha_cita ≤ (ventana t ahora).2) →
        [a, b].Sublist ((intentosNuevos w (tick fmt t w ahora)).map Prod.fst)) := by
  obtain ⟨tr, h1, h2, _, _, h5⟩ := tick_spec fmt t w ahora
  rw [h1]
  rw [hr, if_pos rfl] at h2 h5
  have hpar : ∀ a b : Cita, [a, b].Sublist w.db →
      (a.estado = "programada" ∧ a.enviado t = false ∧
        (ventana t ahora).1 ≤ a.fecha_cita ∧ a.fecha_cita ≤ (ventana t ahora).2) →
      (b.estado = "programada" ∧ b.enviado t = false ∧
        (ventana t ahora).1 ≤ b.fecha_cita ∧ b.fecha_cita ≤ (ventana t ahora).2) →
      [a, b].Sublist (consulta t (ventana t ahora).1 (ventana t ahora).2 w.db) := by
    intro a b hab ha hb
    have hf := hab.filter (fun c =>
      (decide ((ventana t ahora).1 ≤ c.fecha_cita) &&
        decide (c.fecha_cita ≤ (ventana t ahora).2))
        && (c.enviado t == false) && (c.estado == "programada"))
    have hab' : List.filter (fun c =>
        (decide ((ventana t ahora).1 ≤ c.fecha_cita) &&
          decide (c.fecha_cita ≤ (ventana t ahora).2))
          && (c.enviado t == false) && (c.estado == "programada")) [a, b] = [a, b] := by
      apply List.filter_eq_self.2
      intro c hc
      rcases List.mem_cons.1 hc with rfl | hc
      · simp [ha.1, ha.2.1, ha.2.2.1, ha.2.2.2]
      · rcases List.mem_cons.1 hc with rfl | hc
        · simp [hb.1, hb.2.1, hb.2.2.1, hb.2.2.2]
        · cases hc
    rw [hab'] at hf
    exact hf
  refine ⟨h2.sublist.trans (consulta_sublist _ _ _ _), h2, ?_, ?_⟩
  · intro a b hid hab ha hb hbm
    have hL := hpar a b hab ha hb
    obtain ⟨r, hrr⟩ := h2
    have hnd : (List.map Prod.fst tr ++ r).Nodup := by
      rw [hrr]
      exact (List.Nodup.of_map _ hid).sublist (consulta_sublist _ _ _ _)
    rw [← hrr] at hL
    exact par_sublist_del_prefijo hL (fun hbr => List.disjoint_of_nodup_append hnd hbm hbr)
  · intro hs a b hab ha hb
    rw [h5 hs]
    exact hpar a b hab ha hb

/-- In the world with the `10:00` row stored before the `09:30` row, the 24h
tick makes the calls for the two rows in that order. -/
theorem tick_orden_de_almacenamiento_witness :
    [citaEjemplo 1 "0991234567" (fechaHora 2024 6 2 10 0 0),
        citaEjemplo 2 "0987654321" (fechaHora 2024 6 2 9 30 0)].Sublist
      ((intentosNuevos mundoDesordenado
        (tick fmtEjemplo .h24 mundoDesordenado ahoraEjemplo)).map Prod.fst) :=
  (tick_orden_de_almacenamiento fmtEjemplo .h24 mundoDesordenado ahoraEjemplo rfl).2.2.2
    (sinRechazoVacio_clienteEjemplo _)
    (citaEjemplo 1 "0991234567" (fechaHora 2024 6 2 10 0 0))
    (citaEjemplo 2 "0987654321" (fechaHora 2024 6 2 9 30 0))
    (List.Sublist.refl _) (by decide) (by decide)

/-! ## C11: a reminder is not sent twice -/

theorem marcar_conserva_enviado (t t' : Tipo) (c : Cita) (h : c.enviado t = true) :
    (c.marcar t').enviado t = true := by
  cases t <;> cases t' <;> first | rfl | exact h

/-- The `UPDATE`s of a tick of any kind keep the flag of kind `t` set on the
rows of a given id. -/
theorem marcados_conserva (t t' : Tipo) (ids : List Nat) (db : List Cita) (i : Nat)
    (h : ∀ x ∈ db, x.id = i → x.enviado t = true) :
    ∀ x ∈ marcados t' ids db, x.id = i → x.enviado t = true := by
  intro x hx hxi
  obtain ⟨c0, hc0, rfl⟩ := List.mem_map.1 hx
  by_cases hs : c0.id ∈ ids
  · rw [if_pos hs] at hxi ⊢
    rw [marcar_id] at hxi
    exact marcar_conserva_enviado t t' c0 (h c0 hc0 hxi)
  · rw [if_neg hs] at hxi ⊢
    exact h c0 hc0 hxi

/-- A step keeps the flag of kind `t` set on the rows of a given id. -/
theorem paso_conserva (fmt : Int → String) (t : Tipo) (p : Paso) (w : Mundo) (i : Nat)
    (h : ∀ x ∈ w.db, x.id = i → x.enviado t = true) :
    ∀ x ∈ (paso fmt p w).db, x.id = i → x.enviado t = true := by
  cases p with
  | tick t' ahora =>
    obtain ⟨tr, _, _, h3, _⟩ := tick_spec fmt t' w ahora
    show ∀ x ∈ (tick fmt t' w ahora).db, x.id = i → x.enviado t = true
    rw [h3]
    exact marcados_conserva t t' _ _ i h
  | ready cliente => exact h
  | disconnected => exact h

/-- A sequence of steps keeps the flag of kind `t` set on the rows of a given
id. -/
theorem correr_conserva (fmt : Int → String) (t : Tipo) (pasos : List Paso) (w : Mundo)
    (i : Nat) (h : ∀ x ∈ w.db, x.id = i → x.enviado t = true) :
    ∀ x ∈ (correr fmt pasos w).db, x.id = i → x.enviado t = true := by
  induction pasos generalizing w with
  | nil => exact h
  | cons p resto ih => exact ih (paso fmt p w) (paso_conserva fmt t p w i h)

/-- After a tick whose call for a row returned `true`, the rows with the id of
that row have the flag of the kind set. -/
theorem tick_marca (fmt : Int → String) (t : Tipo) (w : Mundo) (ahora : Int) (c : Cita)
    (h : (c, true) ∈ intentosNuevos w (tick fmt t w ahora)) :
    ∀ x ∈ (tick fmt t w ahora).db, x.id = c.id → x.enviado t = true := by
  obtain ⟨tr, h1, _, h3, _⟩ := tick_spec fmt t w ahora
  rw [h1] at h
  rw [h3]
  have hs : c.id ∈ exitosos tr := by
    simp only [exitosos, List.mem_map, List.mem_filter]
    exact ⟨(c, true), ⟨h, rfl⟩, rfl⟩
  intro x hx hxi
  obtain ⟨c0, _, rfl⟩ := List.mem_map.1 hx
  by_cases h0 : c0.id ∈ exitosos tr
  · rw [if_pos h0]
    exact marcar_enviado t c0
  · rw [if_neg h0] at hxi
    rw [hxi] at h0
    exact absurd hs h0

/-- C11: once a tick of kind `t` has made a successful call for a row, and so
set the flag of kind `t` for its id, then after any later sequence of ticks of
either kind, at any instants, and of `ready` and `disconnected` events, the
rows of that id have the flag set, no `SELECT` of kind `t` returns a row of
that id whatever its bounds, and a tick of kind `t` at any instant makes no
call for a row of that id. -/
theorem tick_no_repite (fmt : Int → String) (t : Tipo) (w : Mundo) (ahora : Int) (c : Cita)
    (h : (c, true) ∈ intentosNuevos w (tick fmt t w ahora))
    (pasos : List Paso) (ahora2 desde hasta : Int) :
    (∀ x ∈ (correr fmt pasos (tick fmt t w ahora)).db, x.id = c.id → x.enviado t = true) ∧
      (∀ x ∈ consulta t desde hasta (correr fmt pasos (tick fmt t w ahora)).db,
        x.id ≠ c.id) ∧
      (∀ p ∈ intentosNuevos (correr fmt pasos (tick fmt t w ahora))
          (tick fmt t (correr fmt pasos (tick fmt t w ahora)) ahora2),
        p.1.id ≠ c.id) := by
  have hP := correr_conserva fmt t pasos _ c.id (tick_marca fmt t w ahora c h)
  have hQ : ∀ d1 d2 : Int,
      ∀ x ∈ consulta t d1 d2 (correr fmt pasos (tick fmt t w ahora)).db, x.id ≠ c.id := by
    intro d1 d2 x hx hxi
    have hm := (consulta_mem _ _ _ _ _).1 hx
    have := hP x hm.1 hxi
    rw [hm.2.2.2.1] at this
    cases this
  refine ⟨hP, hQ desde hasta, ?_⟩
  intro p hp
  obtain ⟨tr, h1, h2, _, _⟩ :=
    tick_spec fmt t (correr fmt pasos (tick fmt t w ahora)) ahora2
  rw [h1] at hp
  exact hQ _ _ p.1 (intento_mem h2 hp).2

/-- In the two-row world the first 2h tick succeeds for row 2; after a 24h
tick, a disconnection, a 2h tick, a reconnection, five minutes later the 2h
tick makes a call for row 1 only. -/
theorem tick_no_repite_witness :
    (citaEjemplo 2 "0987654321" (fechaHora 2024 6 1 12 10 0), true) ∈
        intentosNuevos mundoDosCitas (tick fmtEjemplo .h2 mundoDosCitas ahoraEjemplo) ∧
      (intentosNuevos
          (correr fmtEjemplo
            [.tick .h24 ahoraEjemplo, .disconnected, .tick .h2 ahoraEjemplo,
              .ready (clienteEjemplo fun _ => true)]
            (tick fmtEjemplo .h2 mundoDosCitas ahoraEjemplo))
          (tick fmtEjemplo .h2
            (correr fmtEjemplo
              [.tick .h24 ahoraEjemplo, .disconnected, .tick .h2 ahoraEjemplo,
                .ready (clienteEjemplo fun _ => true)]
              (tick fmtEjemplo .h2 mundoDosCitas ahoraEjemplo))
            (ahoraEjemplo + 5 * 60 * 1000))).map (fun p => p.1.id) = [1] ∧
      ∀ p ∈ intentosNuevos
          (correr fmtEjemplo
            [.tick .h24 ahoraEjemplo, .disconnected, .tick .h2 ahoraEjemplo,
              .ready (clienteEjemplo fun _ => true)]
            (tick fmtEjemplo .h2 mundoDosCitas ahoraEjemplo))
          (tick fmtEjemplo .h2
            (correr fmtEjemplo
              [.tick .h24 ahoraEjemplo, .disconnected, .tick .h2 ahoraEjemplo,
                .ready (clienteEjemplo fun _ => true)]
              (tick fmtEjemplo .h2 mundoDosCitas ahoraEjemplo))
            (ahoraEjemplo + 5 * 60 * 1000)),
        p.1.id ≠ (citaEjemplo 2 "0987654321" (fechaHora 2024 6 1 12 10 0)).id :=
  ⟨by decide, by decide,
    (tick_no_repite fmtEjemplo .h2 mundoDosCitas ahoraEjemplo
      (citaEjemplo 2 "0987654321" (fechaHora 2024 6 1 12 10 0)) (by decide)
      [.tick .h24 ahoraEjemplo, .disconnected, .tick .h2 ahoraEjemplo,
        .ready (clienteEjemplo fun _ => true)]
      (ahoraEjemplo + 5 * 60 * 1000) 0 0).2.2⟩

end NotificacionCitas
